import Mathlib

/-!
A shallow embedding of `scripts/check_cfradial.py`, a checker for CF/Radial 1.2
compliance of netCDF datasets, together with proofs about the claims of its
specification.

Modelling conventions:
* A netCDF dataset is modelled by explicit association lists for its
  dimensions, variables and global attributes (`Dataset`).
* Python attribute values are modelled by `PyVal`; runtime `type(x)` tags by
  `PyType`; numpy dtypes by `DType`.  Float payloads are opaque integers: the
  checker never compares floats numerically (all declared expected values are
  strings), so only (in)equality of payloads matters.
* Character data of a variable is stored as its raw character buffer
  (`VarValue.chars` for 1-D, `VarValue.charRows` for 2-D); the decode paths of
  the source (`tostring().strip('\x00').strip()` and `netCDF4.chartostring`)
  are modelled as functions of that buffer.
* `print`-based diagnostics become values of type `Diag` collected in emission
  order; Python exceptions that can escape the checker are modelled with
  `Except String`.
* `time.strptime(s, '%Y-%m-%dT%H:%M:%SZ')` is modelled after CPython's
  `_strptime`: a regex built from the directives (`%Y` ↦ four digits, `%m` ↦
  `1[0-2]|0[1-9]|[1-9]`, `%d` ↦ `3[01]|[12]\d|0[1-9]|[1-9]`, `%H` ↦
  `2[0-3]|[0-1]\d|\d`, `%M` ↦ `[0-5]\d|\d`, `%S` ↦ `6[0-1]|[0-5]\d|\d`) must
  match the whole string (the regex is compiled with IGNORECASE, so the
  letter literals 'T' and 'Z' also match lowercase), and the calendar date
  must be constructible
  (`datetime.date(year, month, day)` validates `1 <= year` and the day against
  the month length).  For this pattern ordered alternation never needs
  backtracking (after a two-digit branch the following literal can never be a
  digit), so a committed parser is exact.
-/

set_option maxHeartbeats 4000000

namespace CFRadial

/-- Runtime type tags for Python values held in netCDF attributes. -/
inductive PyType
  | pstr
  | pi8
  | pi16
  | pi32
  | pf32
  | pf64
  | pobj : String → PyType
deriving DecidableEq

/-- Python values held in netCDF attributes.  Equality is structural, which
agrees with Python `==` on every comparison the checker performs (each declared
expected value is a string, and in Python a `str` equals no non-`str`). -/
inductive PyVal
  | str : String → PyVal
  | i8 : Int → PyVal
  | i16 : Int → PyVal
  | i32 : Int → PyVal
  | f32 : Int → PyVal
  | f64 : Int → PyVal
  | obj : String → PyVal
deriving DecidableEq

def PyVal.pyType : PyVal → PyType
  | .str _ => .pstr
  | .i8 _ => .pi8
  | .i16 _ => .pi16
  | .i32 _ => .pi32
  | .f32 _ => .pf32
  | .f64 _ => .pf64
  | .obj t => .pobj t

/-- numpy dtypes of netCDF variables; the source names them DOUBLE, FLOAT,
BYTE, INT, SHORT and CHAR (`np.dtype('S1')`). -/
inductive DType
  | f64
  | f32
  | i8
  | i16
  | i32
  | char
  | other : String → DType
deriving DecidableEq

/-- The data carried by a variable, as far as the checker reads it. -/
inductive VarValue
  | chars : String → VarValue
  | charRows : List String → VarValue
  | numeric : VarValue
deriving DecidableEq

/-- A netCDF variable: dtype, ordered dimension names, attributes, data. -/
structure NCVar where
  dtype : DType
  dimensions : List String
  attrs : List (String × PyVal)
  value : VarValue
deriving DecidableEq

/-- A netCDF dataset: dimension names, variables and global attributes. -/
structure Dataset where
  dimensions : List String
  vars : List (String × NCVar)
  attrs : List (String × PyVal)
deriving DecidableEq

/-- Association-list lookup (first binding wins, as keys are unique in netCDF). -/
def lookupA {α : Type} : List (String × α) → String → Option α
  | [], _ => none
  | (k', v) :: rest, k => if k' = k then some v else lookupA rest k

def NCVar.ncattrs (v : NCVar) : List String := v.attrs.map Prod.fst

def NCVar.getAttr? (v : NCVar) (n : String) : Option PyVal := lookupA v.attrs n

def Dataset.ncattrs (ds : Dataset) : List String := ds.attrs.map Prod.fst

def Dataset.getAttr? (ds : Dataset) (n : String) : Option PyVal := lookupA ds.attrs n

def Dataset.getVar? (ds : Dataset) (n : String) : Option NCVar := lookupA ds.vars n

def Dataset.hasVar (ds : Dataset) (n : String) : Bool := (ds.getVar? n).isSome

/-- Well-formedness of a dataset model: netCDF names are unique. -/
def Dataset.WF (ds : Dataset) : Prop :=
  (ds.vars.map Prod.fst).Nodup ∧ (ds.attrs.map Prod.fst).Nodup

instance (ds : Dataset) : Decidable ds.WF := by unfold Dataset.WF; infer_instance

/-! ### String helpers (kernel-computable models of the Python operations) -/

/-- Prefix test on character lists (model of Python `str.startswith`). -/
def charsPre : List Char → List Char → Bool
  | [], _ => true
  | _ :: _, [] => false
  | a :: as, b :: bs => a == b && charsPre as bs

/-- Substring containment on character lists (model of Python `in` on `str`). -/
def charsInf (n : List Char) : List Char → Bool
  | [] => charsPre n []
  | c :: cs => charsPre n (c :: cs) || charsInf n cs

def pyStartsWith (s pre : String) : Bool := charsPre pre.data s.data

def pyContains (hay needle : String) : Bool := charsInf needle.data hay.data

def pyWhitespace (c : Char) : Bool :=
  c == ' ' || c == '\t' || c == '\n' || c == '\x0d' || c == '\x0b' || c == '\x0c'

def dropEndsWhile (p : Char → Bool) (l : List Char) : List Char :=
  ((l.dropWhile p).reverse.dropWhile p).reverse

/-- Python `s.strip('\x00').strip()` as used on raw character buffers. -/
def pyStripNulWs (s : String) : String :=
  String.mk (dropEndsWhile pyWhitespace (dropEndsWhile (· == '\x00') s.data))

/-- Trailing-NUL stripping, as numpy fixed-width byte strings decode. -/
def dropTrailingNul (s : String) : String :=
  String.mk ((s.data.reverse.dropWhile (· == '\x00')).reverse)

/-- Python `s[-n:]`: the last `n` characters (whole string when shorter). -/
def pyLastN (n : Nat) (s : String) : String :=
  String.mk (s.data.drop (s.data.length - n))

/-! ### Model of `time.strptime(s, '%Y-%m-%dT%H:%M:%SZ')` -/

def isDig (c : Char) : Bool := '0' ≤ c && c ≤ '9'

def dval (c : Char) : Nat := c.toNat - '0'.toNat

/-- `%Y`: exactly four digits. -/
def pYear : List Char → Option (Nat × List Char)
  | a :: b :: c :: d :: r =>
    if isDig a && isDig b && isDig c && isDig d then
      some (dval a * 1000 + dval b * 100 + dval c * 10 + dval d, r)
    else none
  | _ => none

/-- `%m`: `1[0-2]|0[1-9]|[1-9]`. -/
def pMonth : List Char → Option (Nat × List Char)
  | [] => none
  | c :: r =>
    if c == '1' then
      match r with
      | b :: r' => if '0' ≤ b && b ≤ '2' then some (10 + dval b, r') else some (1, r)
      | [] => some (1, [])
    else if c == '0' then
      match r with
      | b :: r' => if '1' ≤ b && b ≤ '9' then some (dval b, r') else none
      | [] => none
    else if '2' ≤ c && c ≤ '9' then some (dval c, r)
    else none

/-- `%d`: `3[01]|[12]\d|0[1-9]|[1-9]`. -/
def pDay : List Char → Option (Nat × List Char)
  | [] => none
  | c :: r =>
    if c == '3' then
      match r with
      | b :: r' => if b == '0' || b == '1' then some (30 + dval b, r') else some (3, r)
      | [] => some (3, [])
    else if c == '1' || c == '2' then
      match r with
      | b :: r' => if isDig b then some (dval c * 10 + dval b, r') else some (dval c, r)
      | [] => some (dval c, [])
    else if c == '0' then
      match r with
      | b :: r' => if '1' ≤ b && b ≤ '9' then some (dval b, r') else none
      | [] => none
    else if '4' ≤ c && c ≤ '9' then some (dval c, r)
    else none

/-- `%H`: `2[0-3]|[0-1]\d|\d`. -/
def pHour : List Char → Option (Nat × List Char)
  | [] => none
  | c :: r =>
    if c == '2' then
      match r with
      | b :: r' => if '0' ≤ b && b ≤ '3' then some (20 + dval b, r') else some (2, r)
      | [] => some (2, [])
    else if c == '0' || c == '1' then
      match r with
      | b :: r' => if isDig b then some (dval c * 10 + dval b, r') else some (dval c, r)
      | [] => some (dval c, [])
    else if isDig c then some (dval c, r)
    else none

/-- `%M`: `[0-5]\d|\d`. -/
def pMinute : List Char → Option (Nat × List Char)
  | [] => none
  | c :: r =>
    if '0' ≤ c && c ≤ '5' then
      match r with
      | b :: r' => if isDig b then some (dval c * 10 + dval b, r') else some (dval c, r)
      | [] => some (dval c, [])
    else if isDig c then some (dval c, r)
    else none

/-- `%S`: `6[0-1]|[0-5]\d|\d`. -/
def pSecond : List Char → Option (Nat × List Char)
  | [] => none
  | c :: r =>
    if c == '6' then
      match r with
      | b :: r' => if b == '0' || b == '1' then some (60 + dval b, r') else some (6, r)
      | [] => some (6, [])
    else if '0' ≤ c && c ≤ '5' then
      match r with
      | b :: r' => if isDig b then some (dval c * 10 + dval b, r') else some (dval c, r)
      | [] => some (dval c, [])
    else if isDig c then some (dval c, r)
    else none

def pLit (c : Char) : List Char → Option (List Char)
  | x :: r => if x == c then some r else none
  | [] => none

/-- A letter literal of the format: `_strptime` compiles its regex with
IGNORECASE, so 'T' and 'Z' also match their lowercase forms. -/
def pLitCI (c₁ c₂ : Char) : List Char → Option (List Char)
  | x :: r => if x == c₁ || x == c₂ then some r else none
  | [] => none

def parseUTC (l : List Char) : Option (Nat × Nat × Nat × List Char) := do
  let (y, r) ← pYear l
  let r ← pLit '-' r
  let (m, r) ← pMonth r
  let r ← pLit '-' r
  let (d, r) ← pDay r
  let r ← pLitCI 'T' 't' r
  let (_, r) ← pHour r
  let r ← pLit ':' r
  let (_, r) ← pMinute r
  let r ← pLit ':' r
  let (_, r) ← pSecond r
  let r ← pLitCI 'Z' 'z' r
  pure (y, m, d, r)

def leapYear (y : Nat) : Bool := (y % 4 == 0 && y % 100 != 0) || y % 400 == 0

def daysInMonth (y m : Nat) : Nat :=
  if m == 2 then (if leapYear y then 29 else 28)
  else if m == 4 || m == 6 || m == 9 || m == 11 then 30
  else 31

/-- `time.strptime(s, '%Y-%m-%dT%H:%M:%SZ')` succeeds. -/
def strptimeUTC (s : String) : Bool :=
  match parseUTC s.data with
  | some (y, m, d, r) =>
    r.isEmpty && decide (1 ≤ y) && decide (1 ≤ d) && decide (d ≤ daysInMonth y m)
  | none => false

/-! ### Diagnostics -/

/-- A diagnostic event: section id and message, errors and notes. -/
inductive Diag
  | error : String → String → Diag
  | note : String → String → Diag
deriving DecidableEq

def log_error (sec text : String) : Diag := .error sec text

def log_note (sec text : String) : Diag := .note sec text

/-- Occurrence count of a diagnostic in an emitted list. -/
def countDiag (d : Diag) : List Diag → Nat
  | [] => 0
  | x :: xs => (if x = d then 1 else 0) + countDiag d xs

/-! ### Rendering of values inside messages (Python `%s`) -/

def PyType.render : PyType → String
  | .pstr => "<type 'unicode'>"
  | .pi8 => "<type 'numpy.int8'>"
  | .pi16 => "<type 'numpy.int16'>"
  | .pi32 => "<type 'numpy.int32'>"
  | .pf32 => "<type 'numpy.float32'>"
  | .pf64 => "<type 'numpy.float64'>"
  | .pobj t => "<type '" ++ t ++ "'>"

def renderOptPyType : Option PyType → String
  | none => "None"
  | some t => t.render

def PyVal.render : PyVal → String
  | .str s => s
  | .i8 n => toString n
  | .i16 n => toString n
  | .i32 n => toString n
  | .f32 n => "float32#" ++ toString n
  | .f64 n => "float64#" ++ toString n
  | .obj t => "<" ++ t ++ ">"

def renderOptPyVal : Option PyVal → String
  | none => "None"
  | some v => v.render

def DType.render : DType → String
  | .f64 => "float64"
  | .f32 => "float32"
  | .i8 => "int8"
  | .i16 => "int16"
  | .i32 => "int32"
  | .char => "|S1"
  | .other t => t

def renderOptDType : Option DType → String
  | none => "None"
  | some d => d.render

/-- Python `str` of a tuple of dimension names. -/
def renderDims : List String → String
  | [] => "()"
  | [a] => "('" ++ a ++ "',)"
  | l => "(" ++ String.intercalate ", " (l.map (fun s => "'" ++ s ++ "'")) ++ ")"

/-- A declared expected dimension: a tuple of names, or (by the source's
`('time')` slip in clause 5.1) a bare string. -/
inductive DimExp
  | tup : List String → DimExp
  | str : String → DimExp
deriving DecidableEq

def renderOptDimExp : Option DimExp → String
  | none => "None"
  | some (.tup l) => renderDims l
  | some (.str s) => s

/-! ### Expectation primitives -/

/-- Expected type/value of a netCDF attribute (`None` = unconstrained). -/
structure Attribute where
  _type : Option PyType
  value : Option PyVal
deriving DecidableEq

def Attribute.type_bad (a : Attribute) (t : PyType) : Bool :=
  match a._type with
  | none => false
  | some e => e != t

def Attribute.value_bad (a : Attribute) (v : PyVal) : Bool :=
  match a.value with
  | none => false
  | some e => e != v

/-- Expected dtype/dimensions/units of a netCDF variable. -/
structure Variable where
  dtype : Option DType
  dim : Option DimExp
  units : Option String
deriving DecidableEq

def Variable.dtype_bad (v : Variable) (d : DType) : Bool :=
  match v.dtype with
  | none => false
  | some e => e != d

/-- `self.dim == dim` in Python; a declared string never equals the
dimension-name tuple a netCDF variable reports. -/
def Variable.dim_bad (v : Variable) (dims : List String) : Bool :=
  match v.dim with
  | none => false
  | some (.tup t) => t != dims
  | some (.str _) => true

def Variable.units_bad (v : Variable) (u : PyVal) : Bool :=
  match v.units with
  | none => false
  | some s => PyVal.str s != u

/-- Overwrite-or-append update of an association list (Python dict asignment). -/
def updateA {α : Type} : List (String × α) → String → α → List (String × α)
  | [], k, v => [(k, v)]
  | (k', v') :: rest, k, v =>
    if k' = k then (k, v) :: rest else (k', v') :: updateA rest k v

/-! ### AttributeTable -/

structure AttributeTable where
  text : String
  sec : String
  attributes : List (String × Attribute)
  required_attrs : List String
  optional_attrs : List String

def AttributeTable.make (text sec : String) : AttributeTable := ⟨text, sec, [], [], []⟩

def AttributeTable.req_attr (t : AttributeTable) (n : String)
    (ty : Option PyType) (v : Option PyVal) : AttributeTable :=
  { t with attributes := updateA t.attributes n ⟨ty, v⟩,
           required_attrs := t.required_attrs ++ [n] }

def AttributeTable.opt_attr (t : AttributeTable) (n : String)
    (ty : Option PyType) (v : Option PyVal) : AttributeTable :=
  { t with attributes := updateA t.attributes n ⟨ty, v⟩,
           optional_attrs := t.optional_attrs ++ [n] }

/-- `AttributeTable.check_attr`, on the attribute list of the tested object. -/
def AttributeTable.check_attr (t : AttributeTable) (attr_name : String)
    (required : Bool) (test_attrs : List (String × PyVal)) (verb : Bool) : List Diag :=
  match lookupA test_attrs attr_name with
  | none =>
    if required then
      [log_error t.sec ("Required " ++ t.text ++ " '" ++ attr_name ++ "' missing.")]
    else if verb then
      [log_note t.sec ("Optional " ++ t.text ++ " '" ++ attr_name ++ "' missing.")]
    else []
  | some attr =>
    let attr_obj := (lookupA t.attributes attr_name).getD ⟨none, none⟩
    (if attr_obj.type_bad attr.pyType then
      [log_error t.sec (t.text ++ " '" ++ attr_name ++ "' has incorrect type: " ++
        attr.pyType.render ++ " should be " ++ renderOptPyType attr_obj._type ++ ".")]
    else []) ++
    (if attr_obj.value_bad attr then
      [log_error t.sec (t.text ++ " '" ++ attr_name ++ "' has incorrect value: " ++
        attr.render ++ " should be " ++ renderOptPyVal attr_obj.value ++ ".")]
    else [])

def AttributeTable.check (t : AttributeTable) (test_attrs : List (String × PyVal))
    (verb : Bool) : List Diag :=
  (t.required_attrs.map (fun n => t.check_attr n true test_attrs verb)).flatten ++
  (t.optional_attrs.map (fun n => t.check_attr n false test_attrs verb)).flatten

/-! ### VariableTable -/

structure VariableTable where
  text : String
  sec : String
  vars : List (String × Variable)
  required_vars : List String
  optional_vars : List String

def VariableTable.make (text sec : String) : VariableTable := ⟨text, sec, [], [], []⟩

def VariableTable.req_var (t : VariableTable) (n : String)
    (dtype : Option DType) (dim : Option DimExp) (units : Option String) : VariableTable :=
  { t with vars := updateA t.vars n ⟨dtype, dim, units⟩,
           required_vars := t.required_vars ++ [n] }

def VariableTable.opt_var (t : VariableTable) (n : String)
    (dtype : Option DType) (dim : Option DimExp) (units : Option String) : VariableTable :=
  { t with vars := updateA t.vars n ⟨dtype, dim, units⟩,
           optional_vars := t.optional_vars ++ [n] }

def VariableTable.check_var (t : VariableTable) (var_name : String)
    (required : Bool) (ds : Dataset) (verb : Bool) : List Diag :=
  match ds.getVar? var_name with
  | none =>
    if required then
      [log_error t.sec ("Required " ++ t.text ++ " '" ++ var_name ++ "' missing.")]
    else if verb then
      [log_note t.sec ("Optional " ++ t.text ++ " '" ++ var_name ++ "' missing.")]
    else []
  | some var =>
    let var_obj := (lookupA t.vars var_name).getD ⟨none, none, none⟩
    (if var_obj.dtype_bad var.dtype then
      [log_error t.sec (t.text ++ " '" ++ var_name ++ "' has incorrect type: " ++
        var.dtype.render ++ " should be " ++ renderOptDType var_obj.dtype)]
    else []) ++
    (if var_obj.dim_bad var.dimensions then
      [log_error t.sec (t.text ++ " '" ++ var_name ++ "' has incorrect dimensions: " ++
        renderDims var.dimensions ++ " should be " ++ renderOptDimExp var_obj.dim)]
    else []) ++
    (match var.getAttr? "units" with
     | none =>
       if var_obj.units.isSome then
         [log_error t.sec (t.text ++ " '" ++ var_name ++ "' is missing a unit attribute.")]
       else []
     | some u =>
       if var_obj.units.isSome && var_obj.units_bad u then
         [log_error t.sec (t.text ++ " '" ++ var_name ++ "' has incorrect units: " ++
           u.render ++ " should be " ++ (var_obj.units.getD "None"))]
       else [])

def VariableTable.check (t : VariableTable) (ds : Dataset) (verb : Bool) : List Diag :=
  (t.required_vars.map (fun n => t.check_var n true ds verb)).flatten ++
  (t.optional_vars.map (fun n => t.check_var n false ds verb)).flatten

/-! ### Cross-cutting checks -/

def check_attribute (sec : String) (obj_attrs : List (String × PyVal))
    (text attr_name : String) (valid_choices : List String) : List Diag :=
  match lookupA obj_attrs attr_name with
  | none => []
  | some attr =>
    if (valid_choices.map PyVal.str).contains attr then []
    else
      [log_error sec (text ++ " '" ++ attr_name ++ "' has an invalid value: " ++
        attr.render ++ " must be one of " ++ String.intercalate " " valid_choices)]

/-- The flat character buffer `var[:].tostring()` of a variable (row-major for
2-D character data; numeric data is modelled by an empty buffer, which like the
real raw bytes is never one of the checked enumeration literals). -/
def NCVar.buffer (v : NCVar) : String :=
  match v.value with
  | .chars s => s
  | .charRows rs => String.join rs
  | .numeric => ""

def check_char_variable (sec : String) (ds : Dataset)
    (text var_name : String) (valid_options : List String) : List Diag :=
  match ds.getVar? var_name with
  | none => []
  | some var =>
    let value := pyStripNulWs var.buffer
    if valid_options.contains value then []
    else
      [log_error sec (text ++ " '" ++ var_name ++ "' has an invalid value: " ++
        value ++ " must be one of " ++ String.intercalate " " valid_options)]

/-- Iterating a netCDF variable: the rows of a 2-D character array, the single
characters of a 1-D character array, and (in this model) nothing for numeric
data. -/
def NCVar.rows (v : NCVar) : List String :=
  match v.value with
  | .charRows rs => rs
  | .chars s => s.data.map (fun c => String.mk [c])
  | .numeric => []

def check_chararr_variable (sec : String) (ds : Dataset)
    (text var_name : String) (valid_options : List String) : List Diag :=
  match ds.getVar? var_name with
  | none => []
  | some var =>
    (var.rows.enum.map (fun p =>
      let value := pyStripNulWs p.2
      if valid_options.contains value then []
      else
        [log_error sec (text ++ " '" ++ var_name ++ "' has an invalid value in position " ++
          toString p.1 ++ ": " ++ value ++ " must be one of " ++
          String.intercalate " " valid_options)])).flatten

/-- `str(netCDF4.chartostring(var[:]))`: a 1-D character buffer decodes to its
string with trailing NULs stripped; other data yields the `str()` of a numpy
object, which is never a bare timestamp. -/
def NCVar.chartostring (v : NCVar) : String :=
  match v.value with
  | .chars s => dropTrailingNul s
  | .charRows rs => "[" ++ String.intercalate " " (rs.map (fun r => "'" ++ r ++ "'")) ++ "]"
  | .numeric => "<non-character data>"

def check_valid_time_format (sec : String) (ds : Dataset)
    (text var_name : String) : List Diag :=
  match ds.getVar? var_name with
  | none => []
  | some var =>
    let s := var.chartostring
    if strptimeUTC s then []
    else
      [log_error sec (text ++ " '" ++ var_name ++ "' has an invalid format: " ++
        s ++ " should be yyyy-mm-ddThh:mm:ssZ")]

def find_all_meta_group_vars (ds : Dataset) (meta_group_name : String) : List String :=
  (ds.vars.filter
    (fun p => p.2.getAttr? "meta_group" == some (PyVal.str meta_group_name))).map Prod.fst

def check_metagroup (sec : String) (ds : Dataset) (meta_group_name : String)
    (valid_meta_group_vars : List String) : List Diag :=
  ((valid_meta_group_vars.map (fun var_name =>
    match ds.getVar? var_name with
    | none => []
    | some var =>
      match var.getAttr? "meta_group" with
      | none =>
        [log_error sec (meta_group_name ++ " " ++ var_name ++
          " does not have a `meta_group` attribute")]
      | some mg =>
        if mg != PyVal.str meta_group_name then
          [log_error sec (meta_group_name ++ " " ++ var_name ++
            " 'meta_group' attribute has incorrect value: " ++ mg.render ++
            " should be " ++ meta_group_name)]
        else [])).flatten) ++
  (((find_all_meta_group_vars ds meta_group_name).map (fun var_name =>
    if valid_meta_group_vars.contains var_name then []
    else
      [log_error sec ("variable " ++ var_name ++
        " should not have its meta_group attribute set to '" ++
        meta_group_name ++ "'")])).flatten)


/-! ### The rule tables and section checks of `check_cfradial_compliance` -/

def DOUBLE : DType := .f64

def FLOAT : DType := .f32

def BYTE : DType := .i8

def INT : DType := .i32

def SHORT : DType := .i16

def CHAR : DType := .char

/-- Clause 3: the Conventions attribute must contain 'CF/Radial'.  Python
`'CF/Radial' not in x` raises TypeError for a non-string `x`; the source does
not catch it. -/
def sec3 (ds : Dataset) : Except String (List Diag) :=
  match ds.getAttr? "Conventions" with
  | none => .ok []
  | some (.str s) =>
    .ok (if pyContains s "CF/Radial" then []
         else [log_error "3" "Convention attribute does not contain 'CF/Radial'"])
  | some _ => .error "TypeError: argument of type is not iterable"

/-- Clause 4.1 global attribute table. -/
def global_attrs : AttributeTable :=
  AttributeTable.make "global attribute" "4.1"
  |>.req_attr "Conventions" (some .pstr) none
  |>.opt_attr "version" (some .pstr) none
  |>.req_attr "title" (some .pstr) none
  |>.req_attr "institution" (some .pstr) none
  |>.req_attr "references" (some .pstr) none
  |>.req_attr "source" (some .pstr) none
  |>.req_attr "history" (some .pstr) none
  |>.req_attr "comment" (some .pstr) none
  |>.req_attr "instrument_name" (some .pstr) none
  |>.opt_attr "site_name" (some .pstr) none
  |>.opt_attr "scan_name" (some .pstr) none
  |>.opt_attr "scan_id" (some .pi32) none
  |>.opt_attr "platform_is_mobile" (some .pstr) none
  |>.opt_attr "n_gates_vary" (some .pstr) none

def sec41 (ds : Dataset) (verb : Bool) : List Diag :=
  global_attrs.check ds.attrs verb ++
  check_attribute "4.1" ds.attrs "global attribute" "platform_is_mobile" ["true", "false"] ++
  check_attribute "4.1" ds.attrs "global attribute" "n_gates_vary" ["true", "false"]

/-- `n_gates_vary_flag`: the attribute exists and equals the string 'true'. -/
def n_gates_vary_flag (ds : Dataset) : Bool :=
  match ds.getAttr? "n_gates_vary" with
  | some v => v == PyVal.str "true"
  | none => false

/-- `mobile_platform`: the attribute exists and equals the string 'true'. -/
def mobile_platform (ds : Dataset) : Bool :=
  match ds.getAttr? "platform_is_mobile" with
  | some v => v == PyVal.str "true"
  | none => false

def sec42 (ds : Dataset) (verb : Bool) : List Diag :=
  (if ds.dimensions.contains "time" then []
   else [log_error "4.2" "Required dimension 'time' missing."]) ++
  (if ds.dimensions.contains "range" then []
   else [log_error "4.2" "Required dimension 'range' missing."]) ++
  (if ds.dimensions.contains "sweep" then []
   else [log_error "4.2" "Required dimension 'sweep' missing."]) ++
  (if n_gates_vary_flag ds && !(ds.dimensions.contains "n_points") then
    [log_error "4.2" "Dimension 'n_points' is required and missing."]
   else []) ++
  (if !(n_gates_vary_flag ds) && ds.dimensions.contains "n_points" then
    [log_error "4.2" "Dimension 'n_points must not be included."]
   else []) ++
  (if verb && !(ds.dimensions.contains "frequency") then
    [log_note "4.2" "Optional dimension 'frequency' missing"]
   else [])

/-- Clause 4.3 global variable table. -/
def global_vars : VariableTable :=
  VariableTable.make "global variable" "4.3"
  |>.req_var "volume_number" (some INT) none none
  |>.opt_var "platform_type" (some CHAR) none none
  |>.opt_var "instrument_type" (some CHAR) none none
  |>.opt_var "primary_axis" (some CHAR) none none
  |>.req_var "time_coverage_start" (some CHAR) none none
  |>.req_var "time_coverage_end" (some CHAR) none none
  |>.opt_var "time_reference" (some CHAR) none none

def valid_platform_types : List String :=
  ["fixed", "vehicle", "ship", "aircraft", "aircraft_fore",
   "aircraft_aft", "aircraft_tail", "aircraft_belly", "aircraft_roof",
   "aircraft_nose", "satellite_orbit", "satellite_geostat"]

def sec43 (ds : Dataset) (verb : Bool) : List Diag :=
  global_vars.check ds verb ++
  check_char_variable "4.3" ds "global variable" "platform_type" valid_platform_types ++
  check_char_variable "4.3" ds "global variable" "instrument_type" ["radar", "lidar"] ++
  check_char_variable "4.3" ds "global variable" "primary_axis" ["axis_z", "axis_y", "axis_x"] ++
  check_valid_time_format "4.3" ds "global_variable" "time_coverage_start" ++
  check_valid_time_format "4.3" ds "global_variable" "time_coverage_end" ++
  check_valid_time_format "4.3" ds "global_variable" "time_reference"

/-- Clause 4.4 coordinate variable table. -/
def coordinate_vars : VariableTable :=
  VariableTable.make "coordinate variable" "4.4"
  |>.req_var "time" (some DOUBLE) (some (.tup ["time"])) none
  |>.req_var "range" (some FLOAT) (some (.tup ["range"])) (some "meters")

def sec44 (ds : Dataset) (verb : Bool) : List Diag :=
  coordinate_vars.check ds verb

/-- Clause 4.4.1 time attribute table. -/
def time_attrs : AttributeTable :=
  AttributeTable.make "time attribute" "4.4.1"
  |>.req_attr "standard_name" (some .pstr) (some (.str "time"))
  |>.req_attr "long_name" (some .pstr) (some (.str "time_in_seconds_since_volume_start"))
  |>.req_attr "units" (some .pstr) none

def sec441table (ds : Dataset) (verb : Bool) : List Diag :=
  match ds.getVar? "time" with
  | some tv => time_attrs.check tv.attrs verb
  | none => []

/-- Clause 4.4.1 bespoke validation of the time units string.  `startswith` on
a non-string units value raises AttributeError, uncaught in the source. -/
def sec441units (ds : Dataset) : Except String (List Diag) :=
  match ds.getVar? "time" with
  | none => .ok []
  | some tv =>
    match tv.getAttr? "units" with
    | none => .ok []
    | some (.str time_units) =>
      let time_str := pyLastN 20 time_units
      .ok (
        (if pyStartsWith time_units "seconds since " then []
         else
           [log_error "4.4.1" ("time attribute 'units' has an invalid format: " ++
             time_units ++ "should begin with 'seconds since '")]) ++
        (if strptimeUTC time_str then []
         else
           [log_error "4.4.1" ("'time' attribute 'units' has an invalid formatted timevalue: " ++
             time_str ++ " should be yyyy-mm-ddThh:mm:ssZ")]) ++
        (match ds.getVar? "time_reference" with
         | some v =>
           if v.chartostring != time_str then
             [log_error "4.4.1"
               ("time attribute 'units' does not match time in time_reference variable: " ++
                 time_str ++ " verses " ++ v.chartostring)]
           else []
         | none =>
           match ds.getVar? "time_coverage_start" with
           | some v =>
             if v.chartostring != time_str then
               [log_error "4.4.1"
                 ("time attribute 'units' does not match time in time_coverage_start variable: " ++
                   time_str ++ " verses " ++ v.chartostring)]
             else []
           | none => []))
    | some _ => .error "AttributeError: object has no attribute 'startswith'"

/-- Clause 4.4.2 range attribute table. -/
def range_attrs : AttributeTable :=
  AttributeTable.make "range attribute" "4.4.2"
  |>.req_attr "standard_name" (some .pstr) (some (.str "projection_range_coordinate"))
  |>.req_attr "long_name" (some .pstr) (some (.str "range_to_measurement_volume"))
  |>.req_attr "units" (some .pstr) (some (.str "meters"))
  |>.req_attr "spacing_is_constant" (some .pstr) none
  |>.req_attr "meters_to_center_of_first_gate" (some .pf32) none
  |>.opt_attr "meters_between_gates" (some .pf32) none
  |>.req_attr "axis" (some .pstr) (some (.str "radial_range_coordinate"))

def sec442 (ds : Dataset) (verb : Bool) : List Diag :=
  match ds.getVar? "range" with
  | some range_var =>
    range_attrs.check range_var.attrs verb ++
    check_attribute "4.4.2" range_var.attrs "range attribute" "spacing_is_constant"
      ["true", "false"]
  | none => []

/-- Clause 4.5 ray dimension variable table. -/
def raydim_vars : VariableTable :=
  VariableTable.make "ray dimension variable" "4.5"
  |>.req_var "ray_n_gates" (some INT) (some (.tup ["time"])) none
  |>.req_var "ray_start_index" (some INT) (some (.tup ["time"])) none

def sec45 (ds : Dataset) : List Diag :=
  if n_gates_vary_flag ds then raydim_vars.check ds false
  else
    (if ds.hasVar "ray_n_gates" then
      [log_error "4.5" "ray dimension variable 'ray_n_gates' must be exist."]
     else []) ++
    (if ds.hasVar "ray_start_index" then
      [log_error "4.5" "ray dimension variable 'ray_start_index' must be exist."]
     else [])

/-- Clause 4.6 location variable table; `dim` is `('time',)` for a mobile
platform and `()` otherwise. -/
def location_vars (dim : Option DimExp) : VariableTable :=
  VariableTable.make "location variable" "4.6"
  |>.req_var "latitude" (some DOUBLE) dim (some "degrees_north")
  |>.req_var "longitude" (some DOUBLE) dim (some "degrees_east")
  |>.req_var "altitude" (some DOUBLE) dim (some "meters")
  |>.opt_var "altitude_agl" (some DOUBLE) dim (some "meters")

def sec46 (ds : Dataset) (verb : Bool) : List Diag :=
  (location_vars (if mobile_platform ds then some (.tup ["time"]) else some (.tup []))).check
    ds verb

/-- Clause 4.7 sweep variable table. -/
def sweep_vars : VariableTable :=
  VariableTable.make "sweep variable" "4.7"
  |>.req_var "sweep_number" (some INT) (some (.tup ["sweep"])) none
  |>.req_var "sweep_mode" (some CHAR) none none
  |>.req_var "fixed_angle" (some FLOAT) (some (.tup ["sweep"])) (some "degrees")
  |>.req_var "sweep_start_ray_index" (some INT) (some (.tup ["sweep"])) none
  |>.req_var "sweep_end_ray_index" (some INT) (some (.tup ["sweep"])) none
  |>.opt_var "target_scan_rate" (some FLOAT) (some (.tup ["sweep"])) (some "degrees_per_second")

def valid_sweep_modes : List String :=
  ["sector", "coplane", "rhi", "vertical_pointing", "idle",
   "azimuth_surveillance", "elevation_surveillance", "sunscan",
   "pointing", "manual_ppi", "manual_rhi"]

def sec47 (ds : Dataset) (verb : Bool) : List Diag :=
  sweep_vars.check ds verb ++
  check_chararr_variable "4.7" ds "sweep variable" "sweep_mode" valid_sweep_modes

/-- Clause 4.8 sensor pointing variable table. -/
def sensor_vars : VariableTable :=
  VariableTable.make "sensor pointing variable" "4.8"
  |>.req_var "azimuth" (some FLOAT) (some (.tup ["time"])) (some "degrees")
  |>.req_var "elevation" (some FLOAT) (some (.tup ["time"])) (some "degrees")
  |>.opt_var "scan_rate" (some FLOAT) (some (.tup ["time"])) (some "degrees_per_second")
  |>.opt_var "antenna_transition" (some BYTE) (some (.tup ["time"])) none

def sec48 (ds : Dataset) (verb : Bool) : List Diag :=
  sensor_vars.check ds verb

/-- Clause 4.8.1 azimuth attribute table. -/
def azimuth_attrs : AttributeTable :=
  AttributeTable.make "azimuth attribute" "4.8.1"
  |>.req_attr "standard_name" (some .pstr) (some (.str "beam_azimuth_angle"))
  |>.req_attr "long_name" (some .pstr) (some (.str "azimuth_angle_from_true_north"))
  |>.req_attr "units" (some .pstr) (some (.str "degrees"))
  |>.req_attr "axis" (some .pstr) (some (.str "radial_azimuth_coordinate"))

def sec481 (ds : Dataset) (verb : Bool) : List Diag :=
  match ds.getVar? "azimuth" with
  | some v => azimuth_attrs.check v.attrs verb
  | none => []

/-- Clause 4.8.2 elevation attribute table. -/
def elev_attrs : AttributeTable :=
  AttributeTable.make "elevation attribute" "4.8.2"
  |>.req_attr "standard_name" (some .pstr) (some (.str "beam_elevation_angle"))
  |>.req_attr "long_name" (some .pstr) (some (.str "elevation_angle_from_horizontal_plane"))
  |>.req_attr "units" (some .pstr) (some (.str "degrees"))
  |>.req_attr "axis" (some .pstr) (some (.str "radial_elevation_coordinate"))

def sec482 (ds : Dataset) (verb : Bool) : List Diag :=
  match ds.getVar? "elevation" with
  | some v => elev_attrs.check v.attrs verb
  | none => []

/-- Clause 4.9 moving platform geo-reference variable table. -/
def georef_vars : VariableTable :=
  VariableTable.make "moving platform geo-reference variable" "4.9"
  |>.req_var "heading" (some FLOAT) (some (.tup ["time"])) (some "degrees")
  |>.req_var "roll" (some FLOAT) (some (.tup ["time"])) (some "degrees")
  |>.req_var "pitch" (some FLOAT) (some (.tup ["time"])) (some "degrees")
  |>.req_var "drift" (some FLOAT) (some (.tup ["time"])) (some "degrees")
  |>.req_var "rotation" (some FLOAT) (some (.tup ["time"])) (some "degrees")
  |>.req_var "tilt" (some FLOAT) (some (.tup ["time"])) (some "degrees")

def georefNames : List String := ["heading", "roll", "pitch", "drift", "rotation", "tilt"]

def sec49 (ds : Dataset) (verb : Bool) : List Diag :=
  if mobile_platform ds then georef_vars.check ds verb
  else
    (georefNames.map (fun v =>
      if ds.hasVar v then
        [log_error "4.9" ("variable '" ++ v ++ "' must be omitted for fixed platforms")]
      else [])).flatten

/-- Clause 4.10: the per-field attribute table built for one field variable. -/
def field_attrs (mobile : Bool) (var_name : String) (v : NCVar) : AttributeTable :=
  let coordinates_value : String :=
    if mobile then "elevation azimuth range heading roll pitch rotation tilt"
    else "elevation azimuth range"
  let t := AttributeTable.make ("field variable " ++ var_name) "4.10"
    |>.opt_attr "long_name" (some .pstr) none
    |>.req_attr "standard_name" (some .pstr) none
    |>.req_attr "units" (some .pstr) none
    |>.req_attr "_FillValue" none none
  let t := if [BYTE, SHORT, INT].contains v.dtype then
      t |>.req_attr "scale_factor" (some .pf32) none |>.req_attr "add_offset" (some .pf32) none
    else t
  t.req_attr "coordinates" (some .pstr) (some (.str coordinates_value))

/-- Clause 4.10: every variable with dimensions ('time', 'range') is field data. -/
def sec410 (ds : Dataset) (verb : Bool) : List Diag :=
  (ds.vars.map (fun p =>
    if p.2.dimensions == ["time", "range"] then
      (if [BYTE, SHORT, INT, FLOAT, DOUBLE].contains p.2.dtype then []
       else
         [log_error "4.10" ("field variable '" ++ p.1 ++ "' has invalid type: " ++
           p.2.dtype.render)]) ++
      (field_attrs (mobile_platform ds) p.1 p.2).check p.2.attrs verb
    else [])).flatten

/-- Clause 5.1 instrument_parameters table.  `sampling_ratio` is registered
with the parenthesised string `('time')`, not the tuple `('time', )`. -/
def ip_vars : VariableTable :=
  VariableTable.make "instrument_parameters variable" "5.1"
  |>.opt_var "frequency" (some FLOAT) (some (.tup ["frequency"])) (some "s-1")
  |>.opt_var "follow_mode" (some CHAR) none none
  |>.opt_var "pulse_width" (some FLOAT) (some (.tup ["time"])) (some "seconds")
  |>.opt_var "prt_mode" (some CHAR) none none
  |>.opt_var "prt" (some FLOAT) (some (.tup ["time"])) (some "seconds")
  |>.opt_var "prt_ratio" (some FLOAT) (some (.tup ["time"])) none
  |>.opt_var "polarization_mode" (some CHAR) none none
  |>.opt_var "nyquist_velocity" (some FLOAT) (some (.tup ["time"])) (some "meters_per_second")
  |>.opt_var "unambiguous_range" (some FLOAT) (some (.tup ["time"])) (some "meters")
  |>.opt_var "n_samples" (some INT) (some (.tup ["time"])) none
  |>.opt_var "sampling_ratio" (some FLOAT) (some (.str "time")) none

def sec51table (ds : Dataset) (verb : Bool) : List Diag := ip_vars.check ds verb

/-- The `_mode` first-dimension loop; `dimensions[0]` on an empty dimension
tuple raises IndexError, which the source does not catch. -/
def modeDimLoop (ds : Dataset) : List String → Except String (List Diag)
  | [] => .ok []
  | v :: rest =>
    match ds.getVar? v with
    | none => modeDimLoop ds rest
    | some var =>
      match var.dimensions with
      | [] => .error "IndexError: tuple index out of range"
      | dim_0 :: _ =>
        match modeDimLoop ds rest with
        | .error e => .error e
        | .ok later =>
          .ok ((if dim_0 != "sweep" then
            [log_error "5.1" ("instrument_parameters " ++ v ++
              " must have a first dimension of sweep, not " ++ dim_0)]
          else []) ++ later)

def sec51modes (ds : Dataset) : Except String (List Diag) :=
  modeDimLoop ds ["follow_mode", "prt_mode", "polarization_mode"]

def valid_follow_modes : List String :=
  ["none", "sun", "vehicle", "aircraft", "target", "manual"]

def sec51enums (ds : Dataset) : List Diag :=
  check_chararr_variable "5.1" ds "instrument_parameters" "follow_mode" valid_follow_modes ++
  check_chararr_variable "5.1" ds "instrument_parameters" "prt_mode"
    ["fixed", "staggered", "dual"] ++
  check_chararr_variable "5.1" ds "instrument_parameters" "polarization_mode"
    ["horizontal", "vertical", "hv_alt", "hv_sim", "circular"]

def valid_ip_vars : List String :=
  ["frequency", "follow_mode", "pulse_width", "prt_mode", "prt",
   "prt_ratio", "polarization_mode", "nyquist_velocity",
   "unambiguous_range", "n_samples", "sampling_ratio"]

def sec51meta (ds : Dataset) : List Diag :=
  check_metagroup "5.1" ds "instrument_parameters" valid_ip_vars

/-- Clause 5.2 radar_parameters table. -/
def rp_vars : VariableTable :=
  VariableTable.make "radar_parameters" "5.2"
  |>.opt_var "radar_antenna_gain_h" (some FLOAT) (some (.tup [])) (some "dB")
  |>.opt_var "radar_antenna_gain_v" (some FLOAT) (some (.tup [])) (some "dB")
  |>.opt_var "radar_beam_width_h" (some FLOAT) (some (.tup [])) (some "degrees")
  |>.opt_var "radar_beam_width_v" (some FLOAT) (some (.tup [])) (some "degrees")
  |>.opt_var "radar_reciever_bandwidth" (some FLOAT) (some (.tup [])) (some "s-1")
  |>.opt_var "radar_measured_transmit_power_h" (some FLOAT) (some (.tup ["time"])) (some "dBm")
  |>.opt_var "radar_measured_transmit_power_b" (some FLOAT) (some (.tup ["time"])) (some "dBm")

def valid_rp_vars : List String :=
  ["radar_antenna_gain_h", "radar_antenna_gain_v",
   "radar_beam_width_h", "radar_beam_width_v",
   "radar_reciever_bandwidth",
   "radar_measured_transmit_power_h", "radar_measured_transmit_power_b"]

def sec52 (ds : Dataset) (verb : Bool) : List Diag :=
  rp_vars.check ds verb ++
  check_metagroup "5.2" ds "radar_parameters" valid_rp_vars

/-- Clause 5.3 lidar_parameters table. -/
def lp_vars : VariableTable :=
  VariableTable.make "lidar_parameters" "5.3"
  |>.opt_var "lidar_beam_divergence" (some FLOAT) (some (.tup [])) (some "milliradians")
  |>.opt_var "lidar_field_of_view" (some FLOAT) (some (.tup [])) (some "milliradians")
  |>.opt_var "lidar_aperature_diameter" (some FLOAT) (some (.tup [])) (some "cm")
  |>.opt_var "lidar_aperture_efficiency" (some FLOAT) (some (.tup [])) (some "percent")
  |>.opt_var "lidar_peak_power" (some FLOAT) (some (.tup [])) (some "watts")
  |>.opt_var "lidar_pulse_energy" (some FLOAT) (some (.tup [])) (some "joules")

/-- The canonical 5.3 name list of the source: a missing comma between
`'lidar_aperture_efficiency'` and `'lidar_peak_power'` fuses the two adjacent
string literals into one. -/
def valid_lp_vars : List String :=
  ["lidar_beam_divergence", "lidar_field_of_view",
   "lidar_aperature_diameter", "lidar_aperture_efficiencylidar_peak_power",
   "lidar_pulse_energy"]

def sec53 (ds : Dataset) (verb : Bool) : List Diag :=
  lp_vars.check ds verb ++
  check_metagroup "5.3" ds "lidar_parameters" valid_lp_vars

/-- Clause 5.4 radar_calibration canonical name list. -/
def valid_rc_vars : List String :=
  ["r_calib_index",
   "r_calib_time",
   "r_calib_pulse_width",
   "r_calib_ant_gain_h",
   "r_calib_ant_gain_v",
   "r_calib_xmit_power_h",
   "r_calib_xmit_power_v",
   "r_calib_two_way_waveguide_loss_h",
   "r_calib_two_way_waveguide_loss_v",
   "r_calib_two_way_radome_loss_h",
   "r_calib_two_way_radome_loss_v",
   "r_calib_receiver_mismatch_loss",
   "r_calib_radar_constant_h",
   "r_calib_radar_constant_v",
   "r_calib_noise_hc",
   "r_calib_noise_vc",
   "r_calib_noise_hx",
   "r_calib_noise_vx",
   "r_calib_receiver_gain_hc",
   "r_calib_receiver_gain_vc",
   "r_calib_receiver_gain_hx",
   "r_calib_receiver_gain_vx",
   "r_calib_base_dbz_1km_hc",
   "r_calib_base_dbz_1km_vc",
   "r_calib_base_dbz_1km_hx",
   "r_calib_base_dbz_1km_vx",
   "r_calib_sun_power_hc",
   "r_calib_sun_power_vc",
   "r_calib_sun_power_hx",
   "r_calib_sun_power_vx",
   "r_calib_noise_source_power_h",
   "r_calib_noise_source_power_v",
   "r_calib_power_measure_loss_h",
   "r_calib_power_measure_loss_v",
   "r_calib_coupler_forward_loss_h",
   "r_calib_coupler_forward_loss_v",
   "r_calib_zdr_correction",
   "r_calib_ldr_correction_h",
   "r_calib_ldr_correction_v",
   "r_calib_system_phidp",
   "r_calib_test_power_h",
   "r_calib_test_power_v",
   "r_calib_receiver_slope_hc",
   "r_calib_receiver_slope_vc",
   "r_calib_receiver_slope_hx",
   "r_calib_receiver_slope_vx"]

def sec54meta (ds : Dataset) : List Diag :=
  check_metagroup "5.4" ds "radar_calibration" valid_rc_vars

/-- Clause 5.4.2 radar_calibration variable table. -/
def rc_vars : VariableTable :=
  VariableTable.make "radar_calibration" "5.4.2"
  |>.opt_var "r_calib_index" (some BYTE) (some (.tup ["time"])) none
  |>.opt_var "r_calib_time" (some CHAR) none none
  |>.opt_var "r_calib_pulse_width" (some FLOAT) (some (.tup ["r_calib"])) (some "seconds")
  |>.opt_var "r_calib_ant_gain_h" (some FLOAT) (some (.tup ["r_calib"])) (some "dB")
  |>.opt_var "r_calib_ant_gain_v" (some FLOAT) (some (.tup ["r_calib"])) (some "dB")
  |>.opt_var "r_calib_xmit_power_h" (some FLOAT) (some (.tup ["r_calib"])) (some "dBm")
  |>.opt_var "r_calib_xmit_power_v" (some FLOAT) (some (.tup ["r_calib"])) (some "dBm")
  |>.opt_var "r_calib_two_way_waveguide_loss_h" (some FLOAT) (some (.tup ["r_calib"])) (some "dB")
  |>.opt_var "r_calib_two_way_waveguide_loss_v" (some FLOAT) (some (.tup ["r_calib"])) (some "dB")
  |>.opt_var "r_calib_two_way_radome_loss_h" (some FLOAT) (some (.tup ["r_calib"])) (some "dB")
  |>.opt_var "r_calib_two_way_radome_loss_v" (some FLOAT) (some (.tup ["r_calib"])) (some "dB")
  |>.opt_var "r_calib_receiver_mismatch_loss" (some FLOAT) (some (.tup ["r_calib"])) (some "dB")
  |>.opt_var "r_calib_radar_constant_h" (some FLOAT) (some (.tup ["r_calib"])) (some "dB")
  |>.opt_var "r_calib_radar_constant_v" (some FLOAT) (some (.tup ["r_calib"])) (some "dB")
  |>.opt_var "r_calib_noise_hc" (some FLOAT) (some (.tup ["r_calib"])) (some "dBm")
  |>.opt_var "r_calib_noise_vc" (some FLOAT) (some (.tup ["r_calib"])) (some "dBm")
  |>.opt_var "r_calib_noise_hx" (some FLOAT) (some (.tup ["r_calib"])) (some "dBm")
  |>.opt_var "r_calib_noise_vx" (some FLOAT) (some (.tup ["r_calib"])) (some "dBm")
  |>.opt_var "r_calib_receiver_gain_hc" (some FLOAT) (some (.tup ["r_calib"])) (some "dB")
  |>.opt_var "r_calib_receiver_gain_vc" (some FLOAT) (some (.tup ["r_calib"])) (some "dB")
  |>.opt_var "r_calib_receiver_gain_hx" (some FLOAT) (some (.tup ["r_calib"])) (some "dB")
  |>.opt_var "r_calib_receiver_gain_vx" (some FLOAT) (some (.tup ["r_calib"])) (some "dB")
  |>.opt_var "r_calib_base_dbz_1km_hc" (some FLOAT) (some (.tup ["r_calib"])) (some "dBZ")
  |>.opt_var "r_calib_base_dbz_1km_vc" (some FLOAT) (some (.tup ["r_calib"])) (some "dBZ")
  |>.opt_var "r_calib_base_dbz_1km_hx" (some FLOAT) (some (.tup ["r_calib"])) (some "dBZ")
  |>.opt_var "r_calib_base_dbz_1km_vx" (some FLOAT) (some (.tup ["r_calib"])) (some "dBZ")
  |>.opt_var "r_calib_sun_power_hc" (some FLOAT) (some (.tup ["r_calib"])) (some "dBm")
  |>.opt_var "r_calib_sun_power_vc" (some FLOAT) (some (.tup ["r_calib"])) (some "dBm")
  |>.opt_var "r_calib_sun_power_hx" (some FLOAT) (some (.tup ["r_calib"])) (some "dBm")
  |>.opt_var "r_calib_sun_power_vx" (some FLOAT) (some (.tup ["r_calib"])) (some "dBm")
  |>.opt_var "r_calib_noise_source_power_h" (some FLOAT) (some (.tup ["r_calib"])) (some "dBm")
  |>.opt_var "r_calib_noise_source_power_v" (some FLOAT) (some (.tup ["r_calib"])) (some "dBm")
  |>.opt_var "r_calib_power_measure_loss_h" (some FLOAT) (some (.tup ["r_calib"])) (some "dB")
  |>.opt_var "r_calib_power_measure_loss_v" (some FLOAT) (some (.tup ["r_calib"])) (some "dB")
  |>.opt_var "r_calib_coupler_forward_loss_h" (some FLOAT) (some (.tup ["r_calib"])) (some "dB")
  |>.opt_var "r_calib_coupler_forward_loss_v" (some FLOAT) (some (.tup ["r_calib"])) (some "dB")
  |>.opt_var "r_calib_zdr_correction" (some FLOAT) (some (.tup ["r_calib"])) (some "dB")
  |>.opt_var "r_calib_ldr_correction_h" (some FLOAT) (some (.tup ["r_calib"])) (some "dB")
  |>.opt_var "r_calib_ldr_correction_v" (some FLOAT) (some (.tup ["r_calib"])) (some "dB")
  |>.opt_var "r_calib_system_phidp" (some FLOAT) (some (.tup ["r_calib"])) (some "degrees")
  |>.opt_var "r_calib_test_power_h" (some FLOAT) (some (.tup ["r_calib"])) (some "dBm")
  |>.opt_var "r_calib_test_power_v" (some FLOAT) (some (.tup ["r_calib"])) (some "dBm")
  |>.opt_var "r_calib_receiver_slope_hc" (some FLOAT) (some (.tup ["r_calib"])) none
  |>.opt_var "r_calib_receiver_slope_vc" (some FLOAT) (some (.tup ["r_calib"])) none
  |>.opt_var "r_calib_receiver_slope_hx" (some FLOAT) (some (.tup ["r_calib"])) none
  |>.opt_var "r_calib_receiver_slope_vx" (some FLOAT) (some (.tup ["r_calib"])) none

def sec542table (ds : Dataset) (verb : Bool) : List Diag := rc_vars.check ds verb

/-- Clause 5.4.2 r_calib_time check; `dimensions[0]` on an empty dimension
tuple raises IndexError, uncaught in the source. -/
def sec542time (ds : Dataset) : Except String (List Diag) :=
  match ds.getVar? "r_calib_time" with
  | none => .ok []
  | some r_calib_time =>
    match r_calib_time.dimensions with
    | [] => .error "IndexError: tuple index out of range"
    | dim_0 :: _ =>
      if dim_0 != "r_calib" then
        .ok [log_error "5.4.2"
          ("radar_calibration r_calib_time must have first dimension of 'r_calib' not '" ++
            dim_0 ++ "'")]
      else
        .ok ((r_calib_time.rows.enum.map (fun p =>
          let s := pyStripNulWs p.2
          if strptimeUTC s then []
          else
            [log_error "5.4.2"
              ("radar_calibration r_calib_time has an invalid time format in position " ++
                toString p.1 ++ ": " ++ s ++ " must be yyyy-mm-ddThh:mm:ssZ")])).flatten)

/-- Clause 5.6 platform_velocity table. -/
def pv_vars : VariableTable :=
  VariableTable.make "platform_velocity" "5.6"
  |>.req_var "eastward_velocity" (some FLOAT) (some (.tup ["time"])) (some "meters_per_second")
  |>.req_var "northward_velocity" (some FLOAT) (some (.tup ["time"])) (some "meters_per_second")
  |>.req_var "vertical_velocity" (some FLOAT) (some (.tup ["time"])) (some "meters_per_second")
  |>.req_var "eastward_wind" (some FLOAT) (some (.tup ["time"])) (some "meters_per_second")
  |>.req_var "northward_wind" (some FLOAT) (some (.tup ["time"])) (some "meters_per_second")
  |>.req_var "vertical_wind" (some FLOAT) (some (.tup ["time"])) (some "meters_per_second")
  |>.req_var "heading_rate" (some FLOAT) (some (.tup ["time"])) (some "degrees_per_second")
  |>.req_var "roll_rate" (some FLOAT) (some (.tup ["time"])) (some "degrees_per_second")
  |>.req_var "pitch_rate" (some FLOAT) (some (.tup ["time"])) (some "degrees_per_second")

def valid_pv_vars : List String :=
  ["eastward_velocity", "northward_velocity", "vertical_velocity",
   "eastward_wind", "northward_wind", "vertical_wind",
   "heading_rate", "roll_rate", "pitch_rate"]

/-- Clause 5.6: the juxtaposed source literals `'... the platform is'
'stationary'` concatenate without a space. -/
def sec56 (ds : Dataset) (verb : Bool) : List Diag :=
  if mobile_platform ds then
    pv_vars.check ds verb ++
    check_metagroup "5.6" ds "platform_velocity" valid_pv_vars
  else
    (valid_pv_vars.map (fun var_name =>
      if ds.hasVar var_name then
        [log_error "5.6" ("variable " ++ var_name ++
          " should not exist as the platform isstationary")]
      else [])).flatten

/-- Clause 5.7 geometry_correction table. -/
def gc_vars : VariableTable :=
  VariableTable.make "geometry_correction" "5.7"
  |>.opt_var "azimuth_correction" (some FLOAT) (some (.tup [])) (some "degrees")
  |>.opt_var "elevation_correction" (some FLOAT) (some (.tup [])) (some "degrees")
  |>.opt_var "range_correction" (some FLOAT) (some (.tup [])) (some "meters")
  |>.opt_var "longitude_correction" (some FLOAT) (some (.tup [])) (some "degrees")
  |>.opt_var "latitude_correction" (some FLOAT) (some (.tup [])) (some "degrees")
  |>.opt_var "pressure_altitude_correction" (some FLOAT) (some (.tup [])) (some "meters")
  |>.opt_var "radar_altitude_correction" (some FLOAT) (some (.tup [])) (some "meters")
  |>.opt_var "eastward_ground_speed_correction" (some FLOAT) (some (.tup [])) (some "meter_per_second")
  |>.opt_var "northward_ground_speed_correction" (some FLOAT) (some (.tup [])) (some "meter_per_second")
  |>.opt_var "vertical_velocity_correction" (some FLOAT) (some (.tup [])) (some "meter_per_second")
  |>.opt_var "heading_correction" (some FLOAT) (some (.tup [])) (some "degrees")
  |>.opt_var "roll_correction" (some FLOAT) (some (.tup [])) (some "degrees")
  |>.opt_var "pitch_correction" (some FLOAT) (some (.tup [])) (some "degrees")
  |>.opt_var "drift_correction" (some FLOAT) (some (.tup [])) (some "degrees")
  |>.opt_var "rotation_correction" (some FLOAT) (some (.tup [])) (some "degrees")
  |>.opt_var "tilt_correction" (some FLOAT) (some (.tup [])) (some "degrees")

def valid_gc_vars : List String :=
  ["azimuth_correction",
   "elevation_correction",
   "range_correction",
   "longitude_correction",
   "latitude_correction",
   "pressure_altitude_correction",
   "radar_altitude_correction",
   "eastward_ground_speed_correction",
   "northward_ground_speed_correction",
   "vertical_velocity_correction",
   "heading_correction",
   "roll_correction",
   "pitch_correction",
   "drift_correction",
   "rotation_correction",
   "tilt_correction"]

def sec57 (ds : Dataset) (verb : Bool) : List Diag :=
  gc_vars.check ds verb ++
  check_metagroup "5.7" ds "geometry_correction" valid_gc_vars

/-- `check_cfradial_compliance`: runs the section checks in standard order and
concatenates their diagnostics.  The four fallible sites are sequenced in
program order: an uncaught exception at an earlier site pre-empts the later
checks. -/
def check_cfradial_compliance (ds : Dataset) (verb : Bool) : Except String (List Diag) :=
  match sec3 ds with
  | .error e => .error e
  | .ok d3 =>
    match sec441units ds with
    | .error e => .error e
    | .ok d441u =>
      match sec51modes ds with
      | .error e => .error e
      | .ok d51m =>
        match sec542time ds with
        | .error e => .error e
        | .ok d542t =>
          .ok (d3 ++ sec41 ds verb ++ sec42 ds verb ++ sec43 ds verb ++ sec44 ds verb ++
            sec441table ds verb ++ d441u ++ sec442 ds verb ++ sec45 ds ++ sec46 ds verb ++
            sec47 ds verb ++ sec48 ds verb ++ sec481 ds verb ++ sec482 ds verb ++
            sec49 ds verb ++ sec410 ds verb ++ sec51table ds verb ++ d51m ++
            sec51enums ds ++ sec51meta ds ++ sec52 ds verb ++ sec53 ds verb ++
            sec54meta ds ++ sec542table ds verb ++ d542t ++ sec56 ds verb ++ sec57 ds verb)


/-! ### Specification-side descriptions, worded from the spec (for the
refinement claims), and well-formedness predicates -/

/-- Table well-formedness: every registered name has an expectation entry (the
builders `req_attr`/`opt_attr` guarantee this for every table of the source). -/
def AttributeTable.WF (t : AttributeTable) : Prop :=
  ∀ n ∈ t.required_attrs ++ t.optional_attrs, (lookupA t.attributes n).isSome = true

instance (t : AttributeTable) : Decidable t.WF := by
  unfold AttributeTable.WF; infer_instance

def VariableTable.WF (t : VariableTable) : Prop :=
  ∀ n ∈ t.required_vars ++ t.optional_vars, (lookupA t.vars n).isSome = true

instance (t : VariableTable) : Decidable t.WF := by
  unfold VariableTable.WF; infer_instance

/-- Per-name outcome of an attribute table check as the spec words it: absent
and required → exactly one "Required X 'name' missing." ERROR; absent and
optional → one NOTE exactly when verbose; present → one independent ERROR per
failing comparison, type before value. -/
def attrNameSpec (t : AttributeTable) (n : String) (required : Bool)
    (test_attrs : List (String × PyVal)) (verb : Bool) : List Diag :=
  match lookupA test_attrs n with
  | none =>
    if required then
      [Diag.error t.sec ("Required " ++ t.text ++ " '" ++ n ++ "' missing.")]
    else if verb then
      [Diag.note t.sec ("Optional " ++ t.text ++ " '" ++ n ++ "' missing.")]
    else []
  | some attr =>
    let e := (lookupA t.attributes n).getD ⟨none, none⟩
    (if e.type_bad attr.pyType then
      [Diag.error t.sec (t.text ++ " '" ++ n ++ "' has incorrect type: " ++
        attr.pyType.render ++ " should be " ++ renderOptPyType e._type ++ ".")]
    else []) ++
    (if e.value_bad attr then
      [Diag.error t.sec (t.text ++ " '" ++ n ++ "' has incorrect value: " ++
        attr.render ++ " should be " ++ renderOptPyVal e.value ++ ".")]
    else [])

/-- Per-name outcome of a variable table check as the spec words it: absent
and required → exactly one "Required X 'name' missing." ERROR; absent and
optional → one NOTE exactly when verbose; present → one independent ERROR per
failing comparison in the fixed order type, dimensions, units (a declared
units expectation with no units attribute is itself the units failure). -/
def varNameSpec (t : VariableTable) (n : String) (required : Bool)
    (ds : Dataset) (verb : Bool) : List Diag :=
  match ds.getVar? n with
  | none =>
    if required then
      [Diag.error t.sec ("Required " ++ t.text ++ " '" ++ n ++ "' missing.")]
    else if verb then
      [Diag.note t.sec ("Optional " ++ t.text ++ " '" ++ n ++ "' missing.")]
    else []
  | some var =>
    let e := (lookupA t.vars n).getD ⟨none, none, none⟩
    (if e.dtype_bad var.dtype then
      [Diag.error t.sec (t.text ++ " '" ++ n ++ "' has incorrect type: " ++
        var.dtype.render ++ " should be " ++ renderOptDType e.dtype)]
    else []) ++
    (if e.dim_bad var.dimensions then
      [Diag.error t.sec (t.text ++ " '" ++ n ++ "' has incorrect dimensions: " ++
        renderDims var.dimensions ++ " should be " ++ renderOptDimExp e.dim)]
    else []) ++
    (if e.units.isSome then
      match var.getAttr? "units" with
      | none => [Diag.error t.sec (t.text ++ " '" ++ n ++ "' is missing a unit attribute.")]
      | some u =>
        if e.units_bad u then
          [Diag.error t.sec (t.text ++ " '" ++ n ++ "' has incorrect units: " ++
            u.render ++ " should be " ++ (e.units.getD "None"))]
        else []
    else [])

/-- Spec meta-group rule for one canonical name: absent from the dataset →
silent; present without a `meta_group` attribute → one ERROR; present with a
`meta_group` differing from the label → one differently-worded ERROR;
correctly tagged → silent. -/
def metagroupNameSpec (sec : String) (ds : Dataset) (label n : String) : List Diag :=
  match ds.getVar? n with
  | none => []
  | some var =>
    match var.getAttr? "meta_group" with
    | none =>
      [Diag.error sec (label ++ " " ++ n ++ " does not have a `meta_group` attribute")]
    | some mg =>
      if mg = PyVal.str label then []
      else
        [Diag.error sec (label ++ " " ++ n ++ " 'meta_group' attribute has incorrect value: " ++
          mg.render ++ " should be " ++ label)]

/-- The erroneously-tagged diagnostic of the meta-group scan. -/
def taggedErr (sec label n : String) : Diag :=
  Diag.error sec ("variable " ++ n ++ " should not have its meta_group attribute set to '" ++
    label ++ "'")


/-! ### Helper lemmas -/

theorem countDiag_append (d : Diag) (a b : List Diag) :
    countDiag d (a ++ b) = countDiag d a + countDiag d b := by
  induction a with
  | nil => simp [countDiag]
  | cons x xs ih => simp [countDiag, ih]; omega

theorem countDiag_if (d : Diag) (b : Prop) [Decidable b] (l l' : List Diag) :
    countDiag d (if b then l else l') =
      if b then countDiag d l else countDiag d l' := by
  split <;> rfl

theorem lookupA_mem {α : Type} {l : List (String × α)} {k : String} {v : α}
    (h : lookupA l k = some v) : (k, v) ∈ l := by
  induction l with
  | nil => simp [lookupA] at h
  | cons p rest ih =>
    rw [show p = (p.1, p.2) from rfl] at h ⊢
    unfold lookupA at h
    by_cases hk : p.1 = k
    · simp [hk] at h
      simp [hk, h]
    · simp [hk] at h
      exact List.mem_cons_of_mem _ (ih h)

/-- C8: for every dataset, `check_valid_time_format` emits nothing when the
variable is absent, and exactly one ERROR citing the expected format exactly
when the decoded string fails to parse as the strict UTC format
`YYYY-MM-DDThh:mm:ssZ`; the well-formed example string parses with no
diagnostic and the wrong-separator example yields exactly one error, while
truncated strings, invalid calendar dates and wrong separators all fail. -/
theorem C8_check_valid_time_format (sec : String) (ds : Dataset) (text name : String) :
    (ds.getVar? name = none → check_valid_time_format sec ds text name = []) ∧
    (∀ v, ds.getVar? name = some v →
      check_valid_time_format sec ds text name =
        (if strptimeUTC v.chartostring then []
         else
           [Diag.error sec (text ++ " '" ++ name ++ "' has an invalid format: " ++
             v.chartostring ++ " should be yyyy-mm-ddThh:mm:ssZ")])) ∧
    strptimeUTC "2023-04-01T12:00:00Z" = true ∧
    strptimeUTC "2023-04-01 12:00:00" = false ∧
    strptimeUTC "2023-02-30T12:00:00Z" = false ∧
    strptimeUTC "23-04-01T12:00:00Z" = false ∧
    strptimeUTC "2023-04-01T12:00:00" = false ∧
    strptimeUTC "2023-04-0xT12:00:00Z" = false ∧
    check_valid_time_format "4.3"
      ⟨[], [("time_coverage_start", ⟨CHAR, ["string_length"], [],
        VarValue.chars "2023-04-01T12:00:00Z"⟩)], []⟩
      "global_variable" "time_coverage_start" = [] ∧
    check_valid_time_format "4.3"
      ⟨[], [("time_coverage_start", ⟨CHAR, ["string_length"], [],
        VarValue.chars "2023-04-01 12:00:00"⟩)], []⟩
      "global_variable" "time_coverage_start" =
      [Diag.error "4.3"
        "global_variable 'time_coverage_start' has an invalid format: 2023-04-01 12:00:00 should be yyyy-mm-ddThh:mm:ssZ"] := by
  refine ⟨?_, ?_, by decide, by decide, by decide, by decide, by decide, by decide, by decide, ?_⟩
  · intro h
    unfold check_valid_time_format
    rw [h]
  · intro v h
    unfold check_valid_time_format
    rw [h]
    rfl
  · decide

/-- C8 witness: the absent-variable case on a concrete empty dataset. -/
theorem C8_witness :
    check_valid_time_format "4.3" ⟨[], [], []⟩ "global_variable" "time_reference" = [] :=
  (C8_check_valid_time_format "4.3" ⟨[], [], []⟩ "global_variable" "time_reference").1 rfl


theorem string_data_append (s t : String) : (s ++ t).data = s.data ++ t.data := by
  cases s; cases t; rfl

theorem string_ext {a b : String} (h : a.data = b.data) : a = b := by
  cases a; cases b; exact congrArg String.mk h

theorem string_append_assoc (a b c : String) : (a ++ b) ++ c = a ++ (b ++ c) := by
  apply string_ext
  simp [string_data_append]

theorem string_append_right_cancel {a b : String} (c : String)
    (h : a ++ c = b ++ c) : a = b := by
  apply string_ext
  have := congrArg String.data h
  rw [string_data_append, string_data_append] at this
  exact List.append_cancel_right this

theorem string_append_left_cancel {b c : String} (a : String)
    (h : a ++ b = a ++ c) : b = c := by
  apply string_ext
  have := congrArg String.data h
  rw [string_data_append, string_data_append] at this
  exact List.append_cancel_left this

theorem countDiag_zero {d : Diag} {l : List Diag} (h : ∀ x ∈ l, x ≠ d) :
    countDiag d l = 0 := by
  induction l with
  | nil => rfl
  | cons x xs ih =>
    have hx := h x (List.mem_cons_self x xs)
    simp [countDiag, hx, ih (fun y hy => h y (List.mem_cons_of_mem x hy))]

/-- Counting in a presence-gated per-name diagnostic list: when the per-name
messages are injective and the name list has no duplicates, the diagnostic of
a present name occurs exactly once. -/
theorem countDiag_flatten_map_one (names : List String) (f : String → Diag)
    (g : String → Bool) (hinj : ∀ a ∈ names, ∀ b ∈ names, f a = f b → a = b)
    (hnd : names.Nodup) (v : String) (hv : v ∈ names) (hg : g v = true) :
    countDiag (f v) ((names.map (fun n => if g n then [f n] else [])).flatten) = 1 := by
  induction names with
  | nil => cases hv
  | cons x xs ih =>
    rw [List.map_cons, List.flatten_cons, countDiag_append]
    rcases List.mem_cons.mp hv with hvx | hvxs
    · subst hvx
      have hzero : countDiag (f v) ((xs.map (fun n => if g n then [f n] else [])).flatten) = 0 := by
        apply countDiag_zero
        intro d hd
        rw [List.mem_flatten] at hd
        obtain ⟨l, hl, hdl⟩ := hd
        rw [List.mem_map] at hl
        obtain ⟨n, hn, rfl⟩ := hl
        intro hde
        subst hde
        by_cases hgn : g n = true
        · simp [hgn] at hdl
          have : n = v := hinj n (List.mem_cons_of_mem _ hn) v (List.mem_cons_self _ _) hdl.symm
          subst this
          exact (List.nodup_cons.mp hnd).1 hn
        · simp [Bool.not_eq_true] at hgn
          simp [hgn] at hdl
      rw [hzero, hg]
      simp [countDiag]
    · have hne : f x ≠ f v := by
        intro he
        have : x = v := hinj x (List.mem_cons_self _ _) v (List.mem_cons_of_mem _ hvxs) he
        subst this
        exact (List.nodup_cons.mp hnd).1 hvxs
      have h1 : countDiag (f v) (if g x then [f x] else []) = 0 := by
        split <;> simp [countDiag, hne]
      rw [h1, ih (fun a ha b hb => hinj a (List.mem_cons_of_mem _ ha) b (List.mem_cons_of_mem _ hb))
        (List.nodup_cons.mp hnd).2 hvxs]

/-- C9: the clause 5.1 expectation for `sampling_ratio` was registered with the
plain string 'time', not the tuple `('time', )`; such an expectation rejects
every dimension tuple, so whenever `sampling_ratio` is present its table check
emits the dimension-mismatch ERROR regardless of the variable's actual
dimensions (the dimension diagnostic below is unconditional). -/
theorem C9_sampling_ratio (ds : Dataset) (verb : Bool) :
    lookupA ip_vars.vars "sampling_ratio" =
      some ⟨some FLOAT, some (DimExp.str "time"), none⟩ ∧
    (∀ dims : List String,
      Variable.dim_bad ⟨some FLOAT, some (DimExp.str "time"), none⟩ dims = true) ∧
    (∀ v, ds.getVar? "sampling_ratio" = some v →
      ip_vars.check_var "sampling_ratio" false ds verb =
        (if Variable.dtype_bad ⟨some FLOAT, some (DimExp.str "time"), none⟩ v.dtype then
          [Diag.error "5.1"
            ("instrument_parameters variable 'sampling_ratio' has incorrect type: " ++
              v.dtype.render ++ " should be float32")]
         else []) ++
        [Diag.error "5.1"
          ("instrument_parameters variable 'sampling_ratio' has incorrect dimensions: " ++
            renderDims v.dimensions ++ " should be time")]) ∧
    (∃ pre, sec51table ds verb = pre ++ ip_vars.check_var "sampling_ratio" false ds verb) := by
  refine ⟨by decide, ?_, ?_, ?_⟩
  · intro dims; rfl
  · intro v h
    unfold VariableTable.check_var
    rw [h]
    have hl : lookupA ip_vars.vars "sampling_ratio" =
        some ⟨some FLOAT, some (DimExp.str "time"), none⟩ := by decide
    have hsec : ip_vars.sec = "5.1" := by decide
    have htext : ip_vars.text = "instrument_parameters variable" := by decide
    simp only [hl, Option.getD_some, hsec, htext, log_error]
    cases hu : v.getAttr? "units" with
    | none =>
      simp only [Variable.dim_bad, Option.isSome_none]
      simp [string_append_assoc, renderOptDType, DType.render, FLOAT, renderOptDimExp]
    | some u =>
      simp only [Variable.dim_bad, Option.isSome_none]
      simp [string_append_assoc, renderOptDType, DType.render, FLOAT, renderOptDimExp]
  · refine ⟨((["frequency", "follow_mode", "pulse_width", "prt_mode", "prt",
      "prt_ratio", "polarization_mode", "nyquist_velocity", "unambiguous_range",
      "n_samples"] : List String).map
        (fun n => ip_vars.check_var n false ds verb)).flatten, ?_⟩
    have hreq : ip_vars.required_vars = [] := by decide
    have hopt : ip_vars.optional_vars =
        ["frequency", "follow_mode", "pulse_width", "prt_mode", "prt",
         "prt_ratio", "polarization_mode", "nyquist_velocity", "unambiguous_range",
         "n_samples", "sampling_ratio"] := by decide
    unfold sec51table VariableTable.check
    rw [hreq, hopt]
    simp [List.append_assoc]

/-- C9 witness: a dataset whose `sampling_ratio` has exactly the dimension
tuple `('time', )` still receives the dimension-mismatch error. -/
theorem C9_witness :
    ip_vars.check_var "sampling_ratio" false
      ⟨["time"], [("sampling_ratio", ⟨FLOAT, ["time"], [], VarValue.numeric⟩)], []⟩ false =
      [Diag.error "5.1"
        "instrument_parameters variable 'sampling_ratio' has incorrect dimensions: ('time',) should be time"] := by
  have h := (C9_sampling_ratio
    ⟨["time"], [("sampling_ratio", ⟨FLOAT, ["time"], [], VarValue.numeric⟩)], []⟩ false).2.2.1
    ⟨FLOAT, ["time"], [], VarValue.numeric⟩ rfl
  rw [h]
  decide


/-- On a normal run the orchestrator's output is the concatenation of the
section outputs in standard order. -/
theorem check_ok_decomp (ds : Dataset) (verb : Bool) (l : List Diag)
    (h : check_cfradial_compliance ds verb = Except.ok l) :
    ∃ d3 d441u d51m d542t,
      sec3 ds = Except.ok d3 ∧ sec441units ds = Except.ok d441u ∧
      sec51modes ds = Except.ok d51m ∧ sec542time ds = Except.ok d542t ∧
      l = d3 ++ sec41 ds verb ++ sec42 ds verb ++ sec43 ds verb ++ sec44 ds verb ++
        sec441table ds verb ++ d441u ++ sec442 ds verb ++ sec45 ds ++ sec46 ds verb ++
        sec47 ds verb ++ sec48 ds verb ++ sec481 ds verb ++ sec482 ds verb ++
        sec49 ds verb ++ sec410 ds verb ++ sec51table ds verb ++ d51m ++
        sec51enums ds ++ sec51meta ds ++ sec52 ds verb ++ sec53 ds verb ++
        sec54meta ds ++ sec542table ds verb ++ d542t ++ sec56 ds verb ++ sec57 ds verb := by
  unfold check_cfradial_compliance at h
  cases h3 : sec3 ds with
  | error e => simp only [h3] at h; exact Except.noConfusion h
  | ok d3 =>
    simp only [h3] at h
    cases h4 : sec441units ds with
    | error e => simp only [h4] at h; exact Except.noConfusion h
    | ok d441u =>
      simp only [h4] at h
      cases h5 : sec51modes ds with
      | error e => simp only [h5] at h; exact Except.noConfusion h
      | ok d51m =>
        simp only [h5] at h
        cases h6 : sec542time ds with
        | error e => simp only [h6] at h; exact Except.noConfusion h
        | ok d542t =>
          simp only [h6, Except.ok.injEq] at h
          exact ⟨d3, d441u, d51m, d542t, rfl, rfl, rfl, rfl, h.symm⟩

/-- C10: the clause 5.3 canonical meta-group name list fuses
`lidar_aperture_efficiency` and `lidar_peak_power` into one string (a missing
comma joins the adjacent literals), so a dataset variable of either name whose
`meta_group` is 'lidar_parameters' is flagged as erroneously tagged by the 5.3
meta-group check even though both names are registered in the 5.3
optional-variable table. -/
theorem C10_lidar_fused_list (ds : Dataset) (verb : Bool) :
    valid_lp_vars = ["lidar_beam_divergence", "lidar_field_of_view",
      "lidar_aperature_diameter", "lidar_aperture_efficiencylidar_peak_power",
      "lidar_pulse_energy"] ∧
    "lidar_peak_power" ∉ valid_lp_vars ∧
    "lidar_aperture_efficiency" ∉ valid_lp_vars ∧
    "lidar_peak_power" ∈ lp_vars.optional_vars ∧
    "lidar_aperture_efficiency" ∈ lp_vars.optional_vars ∧
    (∀ n, (n = "lidar_peak_power" ∨ n = "lidar_aperture_efficiency") →
      ∀ v, ds.getVar? n = some v →
        v.getAttr? "meta_group" = some (PyVal.str "lidar_parameters") →
        taggedErr "5.3" "lidar_parameters" n ∈
          check_metagroup "5.3" ds "lidar_parameters" valid_lp_vars ∧
        taggedErr "5.3" "lidar_parameters" n ∈ sec53 ds verb ∧
        (∀ l, check_cfradial_compliance ds verb = Except.ok l →
          taggedErr "5.3" "lidar_parameters" n ∈ l)) := by
  have hmain : ∀ n, (n = "lidar_peak_power" ∨ n = "lidar_aperture_efficiency") →
      ∀ v, ds.getVar? n = some v →
        v.getAttr? "meta_group" = some (PyVal.str "lidar_parameters") →
        taggedErr "5.3" "lidar_parameters" n ∈
          check_metagroup "5.3" ds "lidar_parameters" valid_lp_vars ∧
        taggedErr "5.3" "lidar_parameters" n ∈ sec53 ds verb ∧
        (∀ l, check_cfradial_compliance ds verb = Except.ok l →
          taggedErr "5.3" "lidar_parameters" n ∈ l) := ?_
  case _ => exact ⟨by decide, by decide, by decide, by decide, by decide, hmain⟩
  intro n hn v hv hattr
  have hmem : n ∈ find_all_meta_group_vars ds "lidar_parameters" := by
    unfold find_all_meta_group_vars
    rw [List.mem_map]
    refine ⟨(n, v), ?_, rfl⟩
    rw [List.mem_filter]
    exact ⟨lookupA_mem hv, by simp [NCVar.getAttr?] at hattr ⊢; simp [hattr]⟩
  have hcont : valid_lp_vars.contains n = false := by
    rcases hn with rfl | rfl <;> decide
  have h2 : taggedErr "5.3" "lidar_parameters" n ∈
      (((find_all_meta_group_vars ds "lidar_parameters").map (fun var_name =>
        if valid_lp_vars.contains var_name then []
        else
          [log_error "5.3" ("variable " ++ var_name ++
            " should not have its meta_group attribute set to '" ++
            "lidar_parameters" ++ "'")])).flatten) := by
    rw [List.mem_flatten]
    refine ⟨if valid_lp_vars.contains n then []
      else
        [log_error "5.3" ("variable " ++ n ++
          " should not have its meta_group attribute set to '" ++
          "lidar_parameters" ++ "'")], List.mem_map_of_mem _ hmem, ?_⟩
    rw [hcont]
    simp [taggedErr, log_error]
  have hmg : taggedErr "5.3" "lidar_parameters" n ∈
      check_metagroup "5.3" ds "lidar_parameters" valid_lp_vars := by
    unfold check_metagroup
    exact List.mem_append_right _ h2
  have hs53 : taggedErr "5.3" "lidar_parameters" n ∈ sec53 ds verb := by
    unfold sec53
    exact List.mem_append_right _ hmg
  refine ⟨hmg, hs53, ?_⟩
  intro l hok
  obtain ⟨d3, d441u, d51m, d542t, h1, h2, h3, h4, heq⟩ := check_ok_decomp ds verb l hok
  rw [heq]
  exact List.mem_append_left _ (List.mem_append_left _ (List.mem_append_left _
    (List.mem_append_left _ (List.mem_append_left _ (List.mem_append_right _ hs53)))))

/-- C10 witness: a concrete dataset whose `lidar_peak_power` carries
`meta_group = 'lidar_parameters'` is flagged as erroneously tagged. -/
theorem C10_witness :
    taggedErr "5.3" "lidar_parameters" "lidar_peak_power" ∈
      check_metagroup "5.3"
        ⟨[], [("lidar_peak_power", ⟨FLOAT, [],
          [("meta_group", PyVal.str "lidar_parameters")], VarValue.numeric⟩)], []⟩
        "lidar_parameters" valid_lp_vars :=
  ((C10_lidar_fused_list
    ⟨[], [("lidar_peak_power", ⟨FLOAT, [],
      [("meta_group", PyVal.str "lidar_parameters")], VarValue.numeric⟩)], []⟩ false).2.2.2.2.2
    "lidar_peak_power" (Or.inl rfl)
    ⟨FLOAT, [], [("meta_group", PyVal.str "lidar_parameters")], VarValue.numeric⟩
    rfl rfl).1


/-- C3: `n_gates_vary_flag` holds exactly when the global attribute
`n_gates_vary` exists with string value "true"; when it holds, a missing
`n_points` dimension yields exactly one ERROR and the `ray_n_gates` /
`ray_start_index` variables are required (each absence yields exactly one
ERROR); when it does not hold, a present `n_points` dimension yields exactly
one ERROR and the presence of `ray_n_gates` or `ray_start_index` each yields
its own ERROR. -/
theorem C3_n_gates_vary (ds : Dataset) (verb : Bool) :
    (n_gates_vary_flag ds = true ↔ ds.getAttr? "n_gates_vary" = some (PyVal.str "true")) ∧
    countDiag (Diag.error "4.2" "Dimension 'n_points' is required and missing.")
      (sec42 ds verb) =
      (if n_gates_vary_flag ds && !(ds.dimensions.contains "n_points") then 1 else 0) ∧
    countDiag (Diag.error "4.2" "Dimension 'n_points must not be included.")
      (sec42 ds verb) =
      (if !(n_gates_vary_flag ds) && ds.dimensions.contains "n_points" then 1 else 0) ∧
    (n_gates_vary_flag ds = true →
      sec45 ds = raydim_vars.check ds false ∧
      raydim_vars.check ds false =
        raydim_vars.check_var "ray_n_gates" true ds false ++
        raydim_vars.check_var "ray_start_index" true ds false ∧
      (ds.getVar? "ray_n_gates" = none →
        raydim_vars.check_var "ray_n_gates" true ds false =
          [Diag.error "4.5" "Required ray dimension variable 'ray_n_gates' missing."]) ∧
      (ds.getVar? "ray_start_index" = none →
        raydim_vars.check_var "ray_start_index" true ds false =
          [Diag.error "4.5" "Required ray dimension variable 'ray_start_index' missing."])) ∧
    (n_gates_vary_flag ds = false →
      sec45 ds =
        (if ds.hasVar "ray_n_gates" then
          [Diag.error "4.5" "ray dimension variable 'ray_n_gates' must be exist."]
         else []) ++
        (if ds.hasVar "ray_start_index" then
          [Diag.error "4.5" "ray dimension variable 'ray_start_index' must be exist."]
         else [])) := by
  refine ⟨?_, ?_, ?_, ?_, ?_⟩
  · unfold n_gates_vary_flag
    cases ha : ds.getAttr? "n_gates_vary" with
    | none => simp
    | some v => simp [beq_iff_eq]
  · unfold sec42
    split_ifs <;> decide
  · unfold sec42
    split_ifs <;> decide
  · intro hf
    refine ⟨by unfold sec45; rw [hf]; rfl, ?_, ?_, ?_⟩
    · unfold VariableTable.check
      have hreq : raydim_vars.required_vars = ["ray_n_gates", "ray_start_index"] := by decide
      have hopt : raydim_vars.optional_vars = [] := by decide
      rw [hreq, hopt]
      simp
    · intro h
      unfold VariableTable.check_var
      rw [h]
      rfl
    · intro h
      unfold VariableTable.check_var
      rw [h]
      rfl
  · intro hf
    unfold sec45
    rw [hf]
    rfl

/-- C3 witness: a dataset whose only content is `n_gates_vary = "true"`: the
flag holds, the missing `n_points` dimension is reported exactly once, and the
missing `ray_n_gates` variable yields exactly its MissingRequired error. -/
theorem C3_witness :
    raydim_vars.check_var "ray_n_gates" true
      ⟨[], [], [("n_gates_vary", PyVal.str "true")]⟩ false =
      [Diag.error "4.5" "Required ray dimension variable 'ray_n_gates' missing."] :=
  ((C3_n_gates_vary ⟨[], [], [("n_gates_vary", PyVal.str "true")]⟩ false).2.2.2.1
    (by decide)).2.2.1 rfl

/-- C4: `mobile_platform` holds exactly when the global attribute
`platform_is_mobile` exists with string value "true".  When it does not hold,
each present geo-reference variable and each present platform_velocity
variable yields exactly one ERROR; when it holds, those variables are instead
required, so each absence yields one MissingRequired ERROR. -/
theorem C4_mobile_platform (ds : Dataset) (verb : Bool) :
    (mobile_platform ds = true ↔
      ds.getAttr? "platform_is_mobile" = some (PyVal.str "true")) ∧
    (mobile_platform ds = false →
      sec49 ds verb =
        (georefNames.map (fun v =>
          if ds.hasVar v then
            [Diag.error "4.9" ("variable '" ++ v ++ "' must be omitted for fixed platforms")]
          else [])).flatten ∧
      (∀ v ∈ georefNames, ds.hasVar v = true →
        countDiag
          (Diag.error "4.9" ("variable '" ++ v ++ "' must be omitted for fixed platforms"))
          (sec49 ds verb) = 1) ∧
      sec56 ds verb =
        (valid_pv_vars.map (fun n =>
          if ds.hasVar n then
            [Diag.error "5.6" ("variable " ++ n ++
              " should not exist as the platform isstationary")]
          else [])).flatten ∧
      (∀ n ∈ valid_pv_vars, ds.hasVar n = true →
        countDiag
          (Diag.error "5.6" ("variable " ++ n ++
            " should not exist as the platform isstationary"))
          (sec56 ds verb) = 1)) ∧
    (mobile_platform ds = true →
      sec49 ds verb = georef_vars.check ds verb ∧
      georef_vars.check ds verb =
        (georefNames.map (fun v => georef_vars.check_var v true ds verb)).flatten ∧
      (∀ v ∈ georefNames, ds.getVar? v = none →
        georef_vars.check_var v true ds verb =
          [Diag.error "4.9"
            ("Required moving platform geo-reference variable '" ++ v ++ "' missing.")]) ∧
      (∃ rest, sec56 ds verb = pv_vars.check ds verb ++ rest) ∧
      pv_vars.check ds verb =
        (valid_pv_vars.map (fun n => pv_vars.check_var n true ds verb)).flatten ∧
      (∀ n ∈ valid_pv_vars, ds.getVar? n = none →
        pv_vars.check_var n true ds verb =
          [Diag.error "5.6" ("Required platform_velocity '" ++ n ++ "' missing.")])) := by
  refine ⟨?_, ?_, ?_⟩
  · unfold mobile_platform
    cases ha : ds.getAttr? "platform_is_mobile" with
    | none => simp
    | some v => simp [beq_iff_eq]
  · intro hf
    have h49 : sec49 ds verb =
        (georefNames.map (fun v =>
          if ds.hasVar v then
            [Diag.error "4.9" ("variable '" ++ v ++ "' must be omitted for fixed platforms")]
          else [])).flatten := by
      unfold sec49
      rw [hf]
      rfl
    have h56 : sec56 ds verb =
        (valid_pv_vars.map (fun n =>
          if ds.hasVar n then
            [Diag.error "5.6" ("variable " ++ n ++
              " should not exist as the platform isstationary")]
          else [])).flatten := by
      unfold sec56
      rw [hf]
      rfl
    refine ⟨h49, ?_, h56, ?_⟩
    · intro v hv hg
      rw [h49]
      exact countDiag_flatten_map_one georefNames
        (fun n => Diag.error "4.9" ("variable '" ++ n ++ "' must be omitted for fixed platforms"))
        (fun n => ds.hasVar n)
        (fun a _ b _ h => by
          injection h with h1 h2
          exact string_append_left_cancel _ (string_append_right_cancel _ h2))
        (by decide) v hv hg
    · intro n hn hg
      rw [h56]
      exact countDiag_flatten_map_one valid_pv_vars
        (fun n => Diag.error "5.6" ("variable " ++ n ++
          " should not exist as the platform isstationary"))
        (fun n => ds.hasVar n)
        (fun a _ b _ h => by
          injection h with h1 h2
          exact string_append_left_cancel _ (string_append_right_cancel _ h2))
        (by decide) n hn hg
  · intro hf
    refine ⟨by unfold sec49; rw [hf]; rfl, ?_, ?_, ?_, ?_, ?_⟩
    · unfold VariableTable.check
      have hreq : georef_vars.required_vars = georefNames := by decide
      have hopt : georef_vars.optional_vars = [] := by decide
      rw [hreq, hopt]
      simp
    · intro v hv h
      fin_cases hv <;>
        (unfold VariableTable.check_var; rw [h]; rfl)
    · refine ⟨check_metagroup "5.6" ds "platform_velocity" valid_pv_vars, ?_⟩
      unfold sec56
      rw [hf]
      rfl
    · unfold VariableTable.check
      have hreq : pv_vars.required_vars = valid_pv_vars := by decide
      have hopt : pv_vars.optional_vars = [] := by decide
      rw [hreq, hopt]
      simp
    · intro n hn h
      fin_cases hn <;>
        (unfold VariableTable.check_var; rw [h]; rfl)

/-- C4 witness: with `platform_is_mobile` absent, a present `heading` variable
is reported exactly once as to-be-omitted. -/
theorem C4_witness :
    countDiag (Diag.error "4.9" "variable 'heading' must be omitted for fixed platforms")
      (sec49 ⟨[], [("heading", ⟨FLOAT, ["time"], [], VarValue.numeric⟩)], []⟩ false) = 1 := by
  have h := ((C4_mobile_platform
    ⟨[], [("heading", ⟨FLOAT, ["time"], [], VarValue.numeric⟩)], []⟩ false).2.1
    (by decide)).2.1 "heading" (by decide) (by decide)
  simpa using h


theorem check_attr_eq_spec (t : AttributeTable) (n : String) (required : Bool)
    (a : List (String × PyVal)) (verb : Bool) :
    t.check_attr n required a verb = attrNameSpec t n required a verb := rfl

theorem check_var_eq_spec (t : VariableTable) (n : String) (required : Bool)
    (ds : Dataset) (verb : Bool) :
    t.check_var n required ds verb = varNameSpec t n required ds verb := by
  unfold VariableTable.check_var varNameSpec
  cases hv : ds.getVar? n with
  | none => rfl
  | some var =>
    cases he : lookupA t.vars n with
    | none =>
      simp only [Option.getD_none]
      cases hu : var.getAttr? "units" <;> simp [Variable.units_bad, log_error]
    | some e =>
      obtain ⟨dt, dm, un⟩ := e
      simp only [Option.getD_some]
      cases un with
      | none => cases hu : var.getAttr? "units" <;> simp [Variable.units_bad, log_error]
      | some us => cases hu : var.getAttr? "units" <;> simp [Variable.units_bad, log_error]

/-- C2: every expectation table check visits the required names first and then
the optional names, in registration order, emitting per name exactly the
spec-described diagnostics: one "Required X 'name' missing." ERROR per absent
required name, one NOTE per absent optional name exactly when verbose, and for
present names one independent ERROR per failing comparison in the fixed order
type, dimensions, value/units. -/
theorem C2_table_check (tA : AttributeTable) (test_attrs : List (String × PyVal))
    (tV : VariableTable) (ds : Dataset) (verb : Bool)
    (hA : tA.WF) (hV : tV.WF) :
    tA.check test_attrs verb =
      (tA.required_attrs.map (fun n => attrNameSpec tA n true test_attrs verb)).flatten ++
      (tA.optional_attrs.map (fun n => attrNameSpec tA n false test_attrs verb)).flatten ∧
    tV.check ds verb =
      (tV.required_vars.map (fun n => varNameSpec tV n true ds verb)).flatten ++
      (tV.optional_vars.map (fun n => varNameSpec tV n false ds verb)).flatten ∧
    (∀ n required, lookupA test_attrs n = none →
      attrNameSpec tA n required test_attrs verb =
        if required then
          [Diag.error tA.sec ("Required " ++ tA.text ++ " '" ++ n ++ "' missing.")]
        else if verb then
          [Diag.note tA.sec ("Optional " ++ tA.text ++ " '" ++ n ++ "' missing.")]
        else []) ∧
    (∀ n required, ds.getVar? n = none →
      varNameSpec tV n required ds verb =
        if required then
          [Diag.error tV.sec ("Required " ++ tV.text ++ " '" ++ n ++ "' missing.")]
        else if verb then
          [Diag.note tV.sec ("Optional " ++ tV.text ++ " '" ++ n ++ "' missing.")]
        else []) := by
  refine ⟨rfl, ?_, ?_, ?_⟩
  · unfold VariableTable.check
    have h1 : (fun n => tV.check_var n true ds verb) =
        (fun n => varNameSpec tV n true ds verb) :=
      funext (fun n => check_var_eq_spec tV n true ds verb)
    have h2 : (fun n => tV.check_var n false ds verb) =
        (fun n => varNameSpec tV n false ds verb) :=
      funext (fun n => check_var_eq_spec tV n false ds verb)
    rw [h1, h2]
  · intro n required h
    unfold attrNameSpec
    rw [h]
  · intro n required h
    unfold varNameSpec
    rw [h]

/-- C2 witness: the clause 4.1 and 4.3 tables on an empty dataset. -/
theorem C2_witness :
    AttributeTable.check global_attrs [] false =
      (global_attrs.required_attrs.map (fun n => attrNameSpec global_attrs n true [] false)).flatten ++
      (global_attrs.optional_attrs.map (fun n => attrNameSpec global_attrs n false [] false)).flatten :=
  (C2_table_check global_attrs [] global_vars ⟨[], [], []⟩ false (by decide) (by decide)).1

/-- C5: when the `time` variable carries a string `units` attribute, the
bespoke clause 4.4.1 validation emits, independently, one ERROR when the value
does not begin with "seconds since ", one ERROR when its trailing 20
characters do not parse as the strict UTC format, and one ERROR when those 20
characters differ from the decoded `time_reference` value if that variable is
present, else from the decoded `time_coverage_start` value if present; the
orchestrator embeds these diagnostics in its output. -/
theorem C5_time_units (ds : Dataset) (verb : Bool) (tv : NCVar) (tu : String)
    (h1 : ds.getVar? "time" = some tv)
    (h2 : tv.getAttr? "units" = some (PyVal.str tu)) :
    sec441units ds = Except.ok (
      (if pyStartsWith tu "seconds since " then []
       else
         [Diag.error "4.4.1" ("time attribute 'units' has an invalid format: " ++ tu ++
           "should begin with 'seconds since '")]) ++
      (if strptimeUTC (pyLastN 20 tu) then []
       else
         [Diag.error "4.4.1" ("'time' attribute 'units' has an invalid formatted timevalue: " ++
           pyLastN 20 tu ++ " should be yyyy-mm-ddThh:mm:ssZ")]) ++
      (match ds.getVar? "time_reference" with
       | some v =>
         if v.chartostring != pyLastN 20 tu then
           [Diag.error "4.4.1"
             ("time attribute 'units' does not match time in time_reference variable: " ++
               pyLastN 20 tu ++ " verses " ++ v.chartostring)]
         else []
       | none =>
         match ds.getVar? "time_coverage_start" with
         | some v =>
           if v.chartostring != pyLastN 20 tu then
             [Diag.error "4.4.1"
               ("time attribute 'units' does not match time in time_coverage_start variable: " ++
                 pyLastN 20 tu ++ " verses " ++ v.chartostring)]
           else []
         | none => [])) ∧
    (∀ l, check_cfradial_compliance ds verb = Except.ok l →
      ∃ pre post d441u, sec441units ds = Except.ok d441u ∧ l = pre ++ d441u ++ post) := by
  constructor
  · unfold sec441units
    simp only [h1, h2]
    rfl
  · intro l hok
    obtain ⟨d3, d441u, d51m, d542t, hs3, hs4, hs5, hs6, heq⟩ := check_ok_decomp ds verb l hok
    refine ⟨d3 ++ sec41 ds verb ++ sec42 ds verb ++ sec43 ds verb ++ sec44 ds verb ++
      sec441table ds verb,
      sec442 ds verb ++ sec45 ds ++ sec46 ds verb ++ sec47 ds verb ++ sec48 ds verb ++
      sec481 ds verb ++ sec482 ds verb ++ sec49 ds verb ++ sec410 ds verb ++
      sec51table ds verb ++ d51m ++ sec51enums ds ++ sec51meta ds ++ sec52 ds verb ++
      sec53 ds verb ++ sec54meta ds ++ sec542table ds verb ++ d542t ++ sec56 ds verb ++
      sec57 ds verb, d441u, hs4, ?_⟩
    rw [heq]
    simp [List.append_assoc]

/-- C5 witness: a concrete dataset whose time units value passes all three
checks produces no 4.4.1 diagnostics. -/
theorem C5_witness :
    sec441units ⟨[], [("time", ⟨DOUBLE, ["time"],
      [("units", PyVal.str "seconds since 2023-04-01T12:00:00Z")], VarValue.numeric⟩)], []⟩ =
      Except.ok [] := by
  rw [(C5_time_units ⟨[], [("time", ⟨DOUBLE, ["time"],
    [("units", PyVal.str "seconds since 2023-04-01T12:00:00Z")], VarValue.numeric⟩)], []⟩
    false
    ⟨DOUBLE, ["time"], [("units", PyVal.str "seconds since 2023-04-01T12:00:00Z")],
      VarValue.numeric⟩
    "seconds since 2023-04-01T12:00:00Z" rfl rfl).1]
  rfl

/-- C6: for every meta-group label and canonical name set, `check_metagroup`
emits per canonical name present in the dataset exactly one ERROR when its
`meta_group` attribute is missing and exactly one differently-worded ERROR
when it differs from the label, nothing for absent canonical names, and one
erroneously-tagged ERROR per dataset variable carrying the label outside the
canonical set; the spec's concrete scenario produces exactly the single
`nyquist_velocity` diagnostic. -/
theorem C6_metagroup (sec label : String) (ds : Dataset) (valid : List String) :
    check_metagroup sec ds label valid =
      (valid.map (fun n => metagroupNameSpec sec ds label n)).flatten ++
      ((find_all_meta_group_vars ds label).map (fun n =>
        if valid.contains n then [] else [taggedErr sec label n])).flatten ∧
    (∀ n, ds.getVar? n = none → metagroupNameSpec sec ds label n = []) ∧
    (∀ n v, ds.getVar? n = some v → v.getAttr? "meta_group" = none →
      metagroupNameSpec sec ds label n =
        [Diag.error sec (label ++ " " ++ n ++ " does not have a `meta_group` attribute")]) ∧
    (∀ n v mg, ds.getVar? n = some v → v.getAttr? "meta_group" = some mg →
      mg ≠ PyVal.str label →
      metagroupNameSpec sec ds label n =
        [Diag.error sec (label ++ " " ++ n ++ " 'meta_group' attribute has incorrect value: " ++
          mg.render ++ " should be " ++ label)]) ∧
    (∀ n v, ds.getVar? n = some v →
      v.getAttr? "meta_group" = some (PyVal.str label) →
      metagroupNameSpec sec ds label n = []) ∧
    find_all_meta_group_vars ds label =
      (ds.vars.filter
        (fun p => p.2.getAttr? "meta_group" == some (PyVal.str label))).map Prod.fst ∧
    check_metagroup "5.1"
      ⟨[], [("frequency", ⟨FLOAT, ["frequency"],
        [("meta_group", PyVal.str "instrument_parameters")], VarValue.numeric⟩),
        ("nyquist_velocity", ⟨FLOAT, ["time"],
          [("meta_group", PyVal.str "instrument_parameters")], VarValue.numeric⟩)], []⟩
      "instrument_parameters" ["frequency", "prt"] =
      [taggedErr "5.1" "instrument_parameters" "nyquist_velocity"] := by
  refine ⟨?_, ?_, ?_, ?_, ?_, rfl, by decide⟩
  · unfold check_metagroup
    have hpt : (fun var_name =>
        match ds.getVar? var_name with
        | none => ([] : List Diag)
        | some var =>
          match var.getAttr? "meta_group" with
          | none =>
            [log_error sec (label ++ " " ++ var_name ++
              " does not have a `meta_group` attribute")]
          | some mg =>
            if mg != PyVal.str label then
              [log_error sec (label ++ " " ++ var_name ++
                " 'meta_group' attribute has incorrect value: " ++ mg.render ++
                " should be " ++ label)]
            else []) = (fun n => metagroupNameSpec sec ds label n) := by
      funext n
      unfold metagroupNameSpec
      cases hv : ds.getVar? n with
      | none => simp only [hv]
      | some var =>
        simp only [hv]
        cases ha : var.getAttr? "meta_group" with
        | none => simp only [ha]; rfl
        | some mg =>
          simp only [ha]
          by_cases hmg : mg = PyVal.str label
          · subst hmg
            simp
          · simp [bne_iff_ne, hmg, log_error]
    rw [hpt]
    rfl
  · intro n h
    unfold metagroupNameSpec
    rw [h]
  · intro n v h ha
    unfold metagroupNameSpec
    simp only [h, ha]
  · intro n v mg h ha hne
    unfold metagroupNameSpec
    simp only [h, ha]
    simp [hne]
  · intro n v h ha
    unfold metagroupNameSpec
    simp only [h, ha]
    simp

/-- C6 witness: a canonical name absent from the dataset yields no meta-group
diagnostic. -/
theorem C6_witness :
    metagroupNameSpec "5.1" ⟨[], [], []⟩ "instrument_parameters" "prt" = [] :=
  (C6_metagroup "5.1" "instrument_parameters" ⟨[], [], []⟩ ["frequency", "prt"]).2.1 "prt" rfl


/-- C7: every variable with dimension tuple exactly ('time', 'range') is
treated as field data: one ERROR if its dtype is not one of the five numeric
kinds, then the per-field attribute table check, whose required attributes are
standard_name, units, _FillValue and coordinates, with scale_factor and
add_offset (expected type 32-bit float) additionally required exactly when the
variable's own dtype is an integer kind, and whose expected coordinates value
depends on the mobile_platform flag. -/
theorem C7_field_data (ds : Dataset) (verb : Bool) :
    sec410 ds verb =
      (ds.vars.map (fun p =>
        if p.2.dimensions = ["time", "range"] then
          (if p.2.dtype ∈ [BYTE, SHORT, INT, FLOAT, DOUBLE] then []
           else
             [Diag.error "4.10" ("field variable '" ++ p.1 ++ "' has invalid type: " ++
               p.2.dtype.render)]) ++
          (field_attrs (mobile_platform ds) p.1 p.2).check p.2.attrs verb
        else [])).flatten ∧
    (∀ (m : Bool) (n : String) (v : NCVar),
      (field_attrs m n v).required_attrs =
        ["standard_name", "units", "_FillValue"] ++
        (if v.dtype ∈ [BYTE, SHORT, INT] then ["scale_factor", "add_offset"] else []) ++
        ["coordinates"] ∧
      (field_attrs m n v).optional_attrs = ["long_name"] ∧
      (field_attrs m n v).text = "field variable " ++ n ∧
      (field_attrs m n v).sec = "4.10" ∧
      lookupA (field_attrs m n v).attributes "coordinates" =
        some ⟨some PyType.pstr, some (PyVal.str (if m then
          "elevation azimuth range heading roll pitch rotation tilt"
          else "elevation azimuth range"))⟩ ∧
      lookupA (field_attrs m n v).attributes "scale_factor" =
        (if v.dtype ∈ [BYTE, SHORT, INT] then some ⟨some PyType.pf32, none⟩ else none) ∧
      lookupA (field_attrs m n v).attributes "add_offset" =
        (if v.dtype ∈ [BYTE, SHORT, INT] then some ⟨some PyType.pf32, none⟩ else none) ∧
      lookupA (field_attrs m n v).attributes "standard_name" = some ⟨some PyType.pstr, none⟩ ∧
      lookupA (field_attrs m n v).attributes "units" = some ⟨some PyType.pstr, none⟩ ∧
      lookupA (field_attrs m n v).attributes "_FillValue" = some ⟨none, none⟩) := by
  constructor
  · unfold sec410
    have hpt : (fun p : String × NCVar =>
        if p.2.dimensions == ["time", "range"] then
          (if [BYTE, SHORT, INT, FLOAT, DOUBLE].contains p.2.dtype then []
           else
             [log_error "4.10" ("field variable '" ++ p.1 ++ "' has invalid type: " ++
               p.2.dtype.render)]) ++
          (field_attrs (mobile_platform ds) p.1 p.2).check p.2.attrs verb
        else []) = (fun p : String × NCVar =>
        if p.2.dimensions = ["time", "range"] then
          (if p.2.dtype ∈ [BYTE, SHORT, INT, FLOAT, DOUBLE] then []
           else
             [Diag.error "4.10" ("field variable '" ++ p.1 ++ "' has invalid type: " ++
               p.2.dtype.render)]) ++
          (field_attrs (mobile_platform ds) p.1 p.2).check p.2.attrs verb
        else []) := by
      funext p
      by_cases hd : p.2.dimensions = ["time", "range"]
      · by_cases hc : p.2.dtype ∈ [BYTE, SHORT, INT, FLOAT, DOUBLE] <;>
          simp [hd, hc, log_error]
      · simp [hd]
    rw [hpt]
  · intro m n v
    by_cases hc : v.dtype ∈ [BYTE, SHORT, INT]
    · have hcb : [BYTE, SHORT, INT].contains v.dtype = true := by simp [hc]
      refine ⟨?_, ?_, ?_, ?_, ?_, ?_, ?_, ?_, ?_, ?_⟩ <;>
        simp [field_attrs, AttributeTable.make, AttributeTable.req_attr,
          AttributeTable.opt_attr, updateA, lookupA, hcb, hc]
    · have hcb : [BYTE, SHORT, INT].contains v.dtype = false := by
        simp [hc]
      refine ⟨?_, ?_, ?_, ?_, ?_, ?_, ?_, ?_, ?_, ?_⟩ <;>
        simp [field_attrs, AttributeTable.make, AttributeTable.req_attr,
          AttributeTable.opt_attr, updateA, lookupA, hcb, hc]

/-- C7 witness: the clause 4.10 loop on a concrete dataset with a float field
variable emits exactly the attribute-table diagnostics the per-name spec
predicts (evaluated on an empty-attribute field variable). -/
theorem C7_witness :
    sec410 ⟨["time", "range"],
      [("DBZ", ⟨FLOAT, ["time", "range"], [], VarValue.numeric⟩)], []⟩ false =
      ((⟨["time", "range"],
        [("DBZ", ⟨FLOAT, ["time", "range"], [], VarValue.numeric⟩)], []⟩ : Dataset).vars.map
        (fun p =>
          if p.2.dimensions = ["time", "range"] then
            (if p.2.dtype ∈ [BYTE, SHORT, INT, FLOAT, DOUBLE] then []
             else
               [Diag.error "4.10" ("field variable '" ++ p.1 ++ "' has invalid type: " ++
                 p.2.dtype.render)]) ++
            (field_attrs (mobile_platform ⟨["time", "range"],
              [("DBZ", ⟨FLOAT, ["time", "range"], [], VarValue.numeric⟩)], []⟩) p.1 p.2).check
              p.2.attrs false
          else [])).flatten :=
  (C7_field_data ⟨["time", "range"],
    [("DBZ", ⟨FLOAT, ["time", "range"], [], VarValue.numeric⟩)], []⟩ false).1


theorem modeDimLoop_ok (ds : Dataset) (names : List String)
    (h : ∀ n ∈ names, ∀ v, ds.getVar? n = some v → v.dimensions ≠ []) :
    ∃ a, modeDimLoop ds names = Except.ok a := by
  induction names with
  | nil => exact ⟨[], rfl⟩
  | cons x xs ih =>
    obtain ⟨a, ha⟩ := ih (fun n hn v hv => h n (List.mem_cons_of_mem _ hn) v hv)
    cases hv : ds.getVar? x with
    | none =>
      refine ⟨a, ?_⟩
      unfold modeDimLoop
      simp only [hv]
      exact ha
    | some var =>
      cases hdm : var.dimensions with
      | nil => exact absurd hdm (h x (List.mem_cons_self _ _) var hv)
      | cons d rest =>
        refine ⟨(if (d != "sweep") = true then
          [log_error "5.1" ("instrument_parameters " ++ x ++
            " must have a first dimension of sweep, not " ++ d)] else []) ++ a, ?_⟩
        unfold modeDimLoop
        simp only [hv, hdm, ha]

/-- C1 counterexample: the claim "check_cfradial_compliance never raises an
exception to its caller for any dataset" is false: on a dataset whose
`follow_mode` variable has an empty dimension tuple, taking its first
dimension in the clause 5.1 loop raises an uncaught IndexError. -/
theorem C1_counterexample :
    check_cfradial_compliance
      ⟨[], [("follow_mode", ⟨CHAR, [], [], VarValue.chars "none"⟩)], []⟩ false =
      Except.error "IndexError: tuple index out of range" := rfl

/-- C1 (amended): uncaught failures are confined to the four unguarded value
introspections — a non-string `Conventions` attribute, a non-string time
`units` attribute, and an empty dimension tuple on a present `follow_mode`,
`prt_mode`, `polarization_mode` or `r_calib_time` variable; on every dataset
free of those, `check_cfradial_compliance` returns normally with its
diagnostics (in particular, timestamp-parse failures are caught locally and
converted into diagnostics rather than propagated). -/
theorem C1_no_uncaught_raise (ds : Dataset) (verb : Bool)
    (hConv : ∀ v, ds.getAttr? "Conventions" = some v → ∃ s, v = PyVal.str s)
    (hUnits : ∀ tv, ds.getVar? "time" = some tv →
      ∀ u, tv.getAttr? "units" = some u → ∃ s, u = PyVal.str s)
    (hDims : ∀ n ∈ (["follow_mode", "prt_mode", "polarization_mode",
        "r_calib_time"] : List String),
      ∀ v, ds.getVar? n = some v → v.dimensions ≠ []) :
    ∃ l, check_cfradial_compliance ds verb = Except.ok l := by
  obtain ⟨a3, h3⟩ : ∃ a, sec3 ds = Except.ok a := by
    unfold sec3
    cases hc : ds.getAttr? "Conventions" with
    | none => exact ⟨[], rfl⟩
    | some v =>
      obtain ⟨s, rfl⟩ := hConv v hc
      exact ⟨_, rfl⟩
  obtain ⟨a441, h441⟩ : ∃ a, sec441units ds = Except.ok a := by
    unfold sec441units
    cases hv : ds.getVar? "time" with
    | none => simp only [hv]; exact ⟨[], rfl⟩
    | some tv =>
      simp only [hv]
      cases hu : tv.getAttr? "units" with
      | none => simp only [hu]; exact ⟨[], rfl⟩
      | some u =>
        obtain ⟨s, rfl⟩ := hUnits tv hv u hu
        simp only [hu]
        exact ⟨_, rfl⟩
  obtain ⟨a51, h51⟩ : ∃ a, sec51modes ds = Except.ok a := by
    apply modeDimLoop_ok
    intro n hn v hv
    fin_cases hn <;> exact hDims _ (by decide) v hv
  obtain ⟨a542, h542⟩ : ∃ a, sec542time ds = Except.ok a := by
    unfold sec542time
    cases hv : ds.getVar? "r_calib_time" with
    | none => simp only [hv]; exact ⟨[], rfl⟩
    | some rct =>
      simp only [hv]
      cases hdm : rct.dimensions with
      | nil => exact absurd hdm (hDims "r_calib_time" (by decide) rct hv)
      | cons d rest =>
        simp only [hdm]
        by_cases hne : (d != "r_calib") = true
        · simp only [hne, if_true]
          exact ⟨_, rfl⟩
        · simp only [hne, if_false]
          exact ⟨_, rfl⟩
  unfold check_cfradial_compliance
  rw [h3, h441, h51, h542]
  exact ⟨_, rfl⟩

/-- C1 witness: every variable-free dataset runs to completion. -/
theorem C1_witness :
    ∃ l, check_cfradial_compliance ⟨["time"], [], []⟩ false = Except.ok l :=
  C1_no_uncaught_raise ⟨["time"], [], []⟩ false
    (fun v h => nomatch h)
    (fun tv h => nomatch h)
    (fun n _ v h => nomatch h)

end CFRadial
